import Mathlib

unseal Rat.add Rat.mul Rat.sub Rat.inv

/-!
A verification development for the calibration-lookup pipeline of
`ccd_ai.py` (the Consciousness-Calibrations-Database-AI repository).

The Python source is shallowly embedded as executable Lean definitions:

* Python `str` becomes `String` (all corpus data is ASCII apart from one
  typographic apostrophe; `Char.toLower` agrees with Python `str.lower`
  on every character that actually occurs).
* Python `set[str]` becomes a duplicate-free `List String` built with
  `insertNew`; only membership and intersection cardinality are ever
  consumed, so the (unspecified) iteration order of a Python set never
  matters to the theorems below.
* Python `dict` (used as an insertion-ordered map) becomes an
  association list `List (String × Entry)` updated with `upsert`, which
  mirrors CPython semantics: an update keeps the first-insertion
  position and replaces the value.
* `difflib.SequenceMatcher(None, a, b).ratio()` is embedded as `ratioQ`,
  a rational-valued implementation of the Ratcliff/Obershelp ratio
  (2·M/T over recursively chosen longest matching blocks, with difflib's
  earliest-block tie-breaking).  The `autojunk` popular-element heuristic
  (which only activates on strings of 200+ characters) is not modelled;
  no theorem below depends on the numeric value of the ratio, only on
  the code's comparisons against it.
* Calls to the external text-generation backends (OpenAI / GPT-2) are
  represented by explicit parameters carrying the backend's parsed
  contribution (`Option String` raw text, `Option Bool` parsed judgment,
  a suggestion list, a reference-map pick).  A disabled backend is the
  `none` / `[]` instantiation.  Quantifying over these parameters covers
  every possible backend response.
* The process-lifetime memoization caches (`CONTEXT_ALIGNMENT_CACHE`,
  `DATABASE_ENTRY_TOKENS`, the token-index cache) are pure memoization of
  deterministic functions, hence semantically the identity; the embedded
  functions compute the memoized value directly.
* Python floats in the aggregation layer are embedded as real numbers;
  everything before the aggregator is exact rational/integer arithmetic
  in both Python and the embedding.
-/

/-! ### Character and string helpers (Python `str` primitives) -/

def apostropheChar : Char := Char.ofNat 39

def backquoteChar : Char := Char.ofNat 96

def bulletChar : Char := Char.ofNat 8226

def lsquoChar : Char := Char.ofNat 8216

def rsquoChar : Char := Char.ofNat 8217

def ldquoChar : Char := Char.ofNat 8220

def rdquoChar : Char := Char.ofNat 8221

/-- Python `\s` / `str.strip()` whitespace (the ASCII part, which is all
that occurs in the corpus and the embedded string constants). -/
def isWs (c : Char) : Bool :=
  c = ' ' ∨ c = '\t' ∨ c = '\n' ∨ c = '\r' ∨ c = Char.ofNat 11 ∨ c = Char.ofNat 12

def isAsciiLowerAlpha (c : Char) : Bool := 'a' ≤ c ∧ c ≤ 'z'

def isAsciiUpperAlpha (c : Char) : Bool := 'A' ≤ c ∧ c ≤ 'Z'

def isAsciiAlpha (c : Char) : Bool := isAsciiLowerAlpha c ∨ isAsciiUpperAlpha c

def isAsciiDigit (c : Char) : Bool := '0' ≤ c ∧ c ≤ '9'

/-- Python `str.lower` on the characters that occur in this program. -/
def lowerStr (s : String) : String := String.mk (s.toList.map Char.toLower)

/-- Python `str.strip()` (no argument): trim whitespace from both ends. -/
def stripStr (s : String) : String :=
  String.mk (((s.toList.dropWhile isWs).reverse.dropWhile isWs).reverse)

/-- Python `str.strip(chars)`: trim any of the given characters from both ends. -/
def stripCharSet (s : String) (set : List Char) : String :=
  String.mk (((s.toList.dropWhile set.contains).reverse.dropWhile set.contains).reverse)

/-- Python `s[:-n]` (for `n ≤ len s`): drop the last `n` characters. -/
def dropRightStr (s : String) (n : Nat) : String :=
  String.mk (s.toList.take (s.toList.length - n))

/-- Python `s.endswith(suffix)`. -/
def endsWithStr (s suffix : String) : Bool := suffix.toList.isSuffixOf s.toList

/-- Contiguous-sublist test on character lists. -/
def isInfixL (sub : List Char) : List Char → Bool
  | [] => sub.isEmpty
  | c :: cs => sub.isPrefixOf (c :: cs) || isInfixL sub cs

/-- Python `sub in s` (substring containment). -/
def containsSub (s sub : String) : Bool := isInfixL sub.toList s.toList

/-- Scanner for `findallPat`: `cur` is the reversed run in progress.
After a maximal run ends, the ending character is itself examined as a
possible start of the next match, exactly as the regex engine resumes
scanning right after a match. -/
def findallAux (first rest : Char → Bool) : List Char → Option (List Char) → List (List Char)
  | [], none => []
  | [], some cur => [cur.reverse]
  | c :: cs, none =>
    if first c then findallAux first rest cs (some [c])
    else findallAux first rest cs none
  | c :: cs, some cur =>
    if rest c then findallAux first rest cs (some (c :: cur))
    else
      cur.reverse ::
        (if first c then findallAux first rest cs (some [c])
         else findallAux first rest cs none)

/-- `re.findall` for a pattern of the shape `F R*` (one `first` character
followed by a greedy run of `rest` characters): the left-to-right
non-overlapping greedy maximal matches. -/
def findallPat (first rest : Char → Bool) (l : List Char) : List (List Char) :=
  findallAux first rest l none

/-- Python `s.split()` on an all-single-space string (every call site first
normalizes, so splitting on whitespace and splitting on `' '` agree);
implemented as the maximal runs of non-whitespace characters. -/
def splitWords (s : String) : List String :=
  (findallPat (fun c => ¬ isWs c) (fun c => ¬ isWs c) s.toList).map String.mk

/-! ### Duplicate-free lists standing for Python sets, association lists
standing for Python dicts -/

/-- Add to a set (duplicate-free list) if absent. -/
def insertNew (l : List String) (x : String) : List String :=
  if x ∈ l then l else l ++ [x]

/-- `len(a & b)` for Python sets: `a` is duplicate-free at every call site,
so this counts the intersection. -/
def interCount (a b : List String) : Nat := (a.filter (fun x => x ∈ b)).length

/-- CPython `d[k] = v` on an insertion-ordered dict: a present key keeps its
position and gets the new value, an absent key is appended. -/
def upsert {α : Type} (l : List (String × α)) (k : String) (v : α) : List (String × α) :=
  if l.any (fun p => p.1 = k) then
    l.map (fun p => if p.1 = k then (k, v) else p)
  else
    l ++ [(k, v)]

/-- CPython `d.update(other)`. -/
def updateDict {α : Type} (l other : List (String × α)) : List (String × α) :=
  other.foldl (fun acc p => upsert acc p.1 p.2) l

/-- Dict lookup returning an `Option`. -/
def lookupList {α : Type} (l : List (String × α)) (k : String) : Option α :=
  (l.find? (fun p => p.1 = k)).map Prod.snd

/-! ### `difflib.SequenceMatcher.ratio` (Ratcliff/Obershelp) -/

/-- Length of the common prefix run of two character lists. -/
def commonRun : List Char → List Char → Nat
  | a :: as, b :: bs => if a = b then commonRun as bs + 1 else 0
  | _, _ => 0

theorem commonRun_le_left (a b : List Char) : commonRun a b ≤ a.length := by
  induction a generalizing b with
  | nil => cases b <;> simp [commonRun]
  | cons x xs ih =>
    cases b with
    | nil => simp [commonRun]
    | cons y ys =>
      simp only [commonRun, List.length_cons]
      split
      · exact Nat.succ_le_succ (ih ys)
      · omega

theorem commonRun_le_right (a b : List Char) : commonRun a b ≤ b.length := by
  induction a generalizing b with
  | nil => cases b <;> simp [commonRun]
  | cons x xs ih =>
    cases b with
    | nil => simp [commonRun]
    | cons y ys =>
      simp only [commonRun, List.length_cons]
      split
      · exact Nat.succ_le_succ (ih ys)
      · omega

/-- `SequenceMatcher.find_longest_match` over the whole ranges: the start
indices `(i, j)` of a longest common contiguous block, taking—as difflib's
strict-inequality scan does—the smallest `i` and then the smallest `j`
among maximal blocks, together with the block length. -/
def bestStart (a b : List Char) : Nat × Nat × Nat :=
  (List.range a.length).foldl (fun acc i =>
    (List.range b.length).foldl (fun acc2 j =>
      let r := commonRun (a.drop i) (b.drop j)
      if r > acc2.2.2 then (i, j, r) else acc2) acc) (0, 0, 0)

/-- Total length of the matching blocks of `SequenceMatcher
.get_matching_blocks`: the longest block (recomputed from its start
indices, which bounds it inside both lists), plus the blocks of the parts
to its left and to its right.  The recursion is fuelled so that it is
structural (and hence evaluates inside the kernel): every recursive call
strictly decreases `a.length + b.length` — a non-empty block removes at
least one character from each side's range — so the fuel
`a.length + b.length + 1` supplied by `matchingTotal` never runs out and
the 0-fuel branch is unreachable. -/
def matchingTotalFuel : Nat → List Char → List Char → Nat
  | 0, _, _ => 0
  | fuel + 1, a, b =>
    if commonRun (a.drop (bestStart a b).1) (b.drop (bestStart a b).2.1) = 0 then 0
    else
      matchingTotalFuel fuel (a.take (bestStart a b).1) (b.take (bestStart a b).2.1) +
        commonRun (a.drop (bestStart a b).1) (b.drop (bestStart a b).2.1) +
        matchingTotalFuel fuel
          (a.drop ((bestStart a b).1 +
            commonRun (a.drop (bestStart a b).1) (b.drop (bestStart a b).2.1)))
          (b.drop ((bestStart a b).2.1 +
            commonRun (a.drop (bestStart a b).1) (b.drop (bestStart a b).2.1)))

def matchingTotal (a b : List Char) : Nat :=
  matchingTotalFuel (a.length + b.length + 1) a b

/-- `difflib.SequenceMatcher(None, a, b).ratio()`: `2*M/T`, and `1.0` when
both strings are empty. -/
def ratioQ (a b : String) : ℚ :=
  let la := a.toList.length
  let lb := b.toList.length
  if la + lb = 0 then 1
  else (2 * (matchingTotal a.toList b.toList) : ℚ) / (la + lb)

/-! ### The fixed word sets of `ccd_ai.py` -/

def STOPWORDS : List String :=
  ["a", "an", "and", "are", "as", "at", "be", "but", "by", "do", "does", "for",
   "from", "had", "has", "have", "i", "in", "is", "it", "me", "my", "of", "on",
   "or", "please", "tell", "that", "the", "their", "them", "then", "there",
   "these", "they", "this", "those", "to", "was", "we", "were", "what", "when",
   "where", "which", "who", "why", "will", "with", "would", "you", "your"]

def BANNED_GENERIC_TOKENS : List String :=
  ["all", "being", "thing", "people", "person", "world", "life", "good", "bad",
   "make", "making", "having", "provide", "providing", "blessing"]

def BANNED_DESCRIPTOR_SUBSTRINGS : List String :=
  ["keyword", "keywords", "statement", "prompt", "instruction", "comma",
   "separate", "separated", "list", "response", "respond", "line"]

def NEGATION_TOKENS : List String :=
  ["not", "no", "never", "none", "neither", "resist", "resisting", "avoid",
   "avoiding", "without", "anti", "against", "denial", "refuse", "refusing",
   "reject", "rejecting", "ban", "bans", "banned", "banning", "banish",
   "banished", "banishing", "prohibit", "prohibits", "prohibited",
   "prohibiting", "prohibition", "forbid", "forbids", "forbidden",
   "forbidding", "oppose", "opposes", "opposed", "opposing", "opposition",
   "abolish", "abolishes", "abolished", "abolishing", "low", "lower"]

def SIMILARITY_THRESHOLD : ℚ := 85/100

/-! ### Normalizer and tokenizer -/

/-- `normalize_term`: lowercase, keep only `[a-z0-9]` (everything else
becomes a separator), collapse whitespace runs to single spaces, trim.
The source's leading `strip()` is subsumed by the final trim. -/
def normalize_term (term : String) : String :=
  let mapped := (term.toList.map Char.toLower).map
    (fun c => if isAsciiLowerAlpha c ∨ isAsciiDigit c then c else ' ')
  String.intercalate " "
    ((findallPat (fun c => c ≠ ' ') (fun c => c ≠ ' ') mapped).map String.mk)

/-- `_token_variants`: the token plus its cheap singular/plural variants
(only for tokens longer than 3 characters not ending in a double s),
with empty strings filtered out; a Python set, here a duplicate-free list. -/
def _token_variants (token : String) : List String :=
  let base := [token]
  let base := base ++
    (if 3 < token.toList.length ∧ ¬ endsWithStr token "ss" then
      (if endsWithStr token "ies" then [dropRightStr token 3 ++ "y"] else []) ++
      (if endsWithStr token "es" then [dropRightStr token 2] else []) ++
      (if endsWithStr token "s" then [dropRightStr token 1] else [])
    else [])
  ((base.foldl insertNew []).filter (fun v => v ≠ ""))

/-- `tokenize_for_overlap`: the maximal alphabetic runs of the lowercased
text, stopwords and banned generic tokens dropped, each surviving token
expanded to its variants. -/
def tokenize_for_overlap (text : String) : List String :=
  ((findallPat isAsciiAlpha isAsciiAlpha (lowerStr text).toList).map String.mk).foldl
    (fun acc token =>
      if token ∈ STOPWORDS ∨ token ∈ BANNED_GENERIC_TOKENS then acc
      else (_token_variants token).foldl insertNew acc) []

/-- `has_negation`. -/
def has_negation (text : String) : Bool :=
  (tokenize_for_overlap text).any (fun token => token ∈ NEGATION_TOKENS)

/-- `entry_tokens_for`: the source memoizes
`tokenize_for_overlap (normalize_term name)` in `DATABASE_ENTRY_TOKENS`;
the cache is pure memoization, so the embedding computes the value. -/
def entry_tokens_for (name : String) : List String :=
  tokenize_for_overlap (normalize_term name)

/-- `is_stopword` (an empty normalized term counts as a stopword). -/
def is_stopword (term : String) : Bool :=
  if term = "" then true else term ∈ STOPWORDS

/-! ### Entries and the static data -/

/-- A corpus / reference-map entry: the Python dicts
`{"string": …, "calibration": …, "type": …}`, plus the optional
`matched_fields` / `reason` / `is_adap_map` fields the matching layer
adds to copies. -/
structure Entry where
  string : String
  calibration : ℚ
  type_ : String
  matched_fields : List String
  reason : Option String
  is_adap_map : Bool
deriving DecidableEq, Repr

/-- A plain database entry (`type` is `"ADAP"` for every entry in the
source; the optional fields are absent, i.e. at their falsy defaults). -/
def mkE (s : String) (c : ℚ) : Entry := ⟨s, c, "ADAP", [], none, false⟩

/-- The `database` literal of `ccd_ai.py` (lines 236–1113).  The source
dict literal repeats the keys "60" and "153"; CPython keeps the first
position and the last value, which is what this list records. -/
def database : List (String × Entry) := [
  ("1", mkE "social pressure" 185),
  ("2", mkE "rejecting identification with the experiencer" 575),
  ("3", mkE "microwaved food" 200),
  ("4", mkE "Tokyo" 205),
  ("5", mkE "Jesus Christ" 995),
  ("6", mkE "refusing help (when you need it)" 170),
  ("7", mkE "integrous investor (occupation)" 205),
  ("8", mkE "clinical kinesiology" 250),
  ("9", mkE "Quantum Computing" 199),
  ("10", mkE "Sense of humor" 325),
  ("11", mkE "'God is with us'" 555),
  ("12", mkE "resisting 'being present'" 50),
  ("13", mkE "keeping physical copies of Doc's books increases the energy of your home" 400),
  ("14", mkE "praying for others as an occupation (for compensation)" 300),
  ("15", mkE "chess (board game)" 400),
  ("16", mkE "AG1 (formerly known as Athletic Greens)" 210),
  ("17", mkE "Holy Spirit's role" 600),
  ("18", mkE "Hillsdale College online courses (free)" 370),
  ("19", mkE "The Joe Rogan Experience Podcast" 190),
  ("20", mkE "copper bracelet" 204),
  ("21", mkE "latin cross" 530),
  ("22", mkE "The King's Speech (2010) movie" 405),
  ("23", mkE "statement: I am not the body" 600),
  ("24", mkE "mindfulness" 555),
  ("25", mkE "Ralph Lauren clothing company" 197),
  ("26", mkE "deciding to do therapy, seeking help from a therapist" 280),
  ("27", mkE "rainbow" 300),
  ("28", mkE "mathematics" 410),
  ("29", mkE "Ramana Maharshi" 600),
  ("30", mkE "ChatGPT (AI chatbot)" 190),
  ("31", mkE "Louis Armstrong - What A Wonderful World" 540),
  ("32", mkE "Microsoft" 199),
  ("33", mkE "Google" 195),
  ("34", mkE "consciousness calibration is all one needs to reach enlightenment" 400),
  ("35", mkE "Having a business" 285),
  ("36", mkE "George Floyd" 35),
  ("37", mkE "fight fire with fire" 200),
  ("38", mkE "apology" 250),
  ("39", mkE "monkhood / monasticism" 450),
  ("40", mkE "chocolate" 290),
  ("41", mkE "chocolate confections" 390),
  ("42", mkE "tarriffs" 200),
  ("43", mkE "programmer" 370),
  ("44", mkE "Having one's Level of consciousness calibrated" 500),
  ("45", mkE "Making your bed every morning" 205),
  ("46", mkE "energy field of an in-person 12-step meeting" 490),
  ("47", mkE "contemplating 'I'" 570),
  ("48", mkE "reverse engineering" 205),
  ("49", mkE "violence" 15),
  ("50", mkE "existence is forever" 690),
  ("51", mkE "appearance is not essence" 540),
  ("52", mkE "dancing as a spiritual practice" 500),
  ("53", mkE "listening to a Dr. Hawkins lecture" 480),
  ("54", mkE "adopting pets from animal shelters as rescues" 350),
  ("55", mkE "ignatian retreat" 350),
  ("56", mkE "wrapping presents and giving them to each other for christmas" 350),
  ("57", mkE "large-scale biogas production" 194),
  ("58", mkE "small-scale biogas production" 204),
  ("59", mkE "germany" 220),
  ("60", mkE "inner child (ACA concept)" 395),
  ("61", mkE "visualizing oneself being protected by Doc" 560),
  ("62", mkE "law of attraction" 200),
  ("63", mkE "law of assumption (for manifesting)" 210),
  ("64", mkE "fear of death" 5),
  ("65", mkE "panic attack" 10),
  ("66", mkE "self-punishment" 20),
  ("67", mkE "intrusive thought" 25),
  ("68", mkE "dumpster diving for food" 30),
  ("69", mkE "self-judging instinct" 35),
  ("70", mkE "lust" 40),
  ("71", mkE "human body" 45),
  ("72", mkE "ritual instinct" 55),
  ("73", mkE "giving away your power" 60),
  ("74", mkE "laziness" 65),
  ("75", mkE "ban on religion" 70),
  ("76", mkE "self-sabaotage" 75),
  ("77", mkE "feeling lonely" 80),
  ("78", mkE "melancholy" 85),
  ("79", mkE "hell does not exist" 90),
  ("80", mkE "snoring" 95),
  ("81", mkE "poverty" 100),
  ("82", mkE "cheating (infidelity)" 110),
  ("83", mkE "mass media's average level of truth" 115),
  ("84", mkE "low self esteem" 120),
  ("85", mkE "awkward silence" 125),
  ("86", mkE "all suffering is due to external events" 130),
  ("87", mkE "heartache" 135),
  ("88", mkE "inability to calibrate" 140),
  ("89", mkE "binge-watching" 145),
  ("90", mkE "dirty talk between lovers" 150),
  ("91", mkE "stubborn" 155),
  ("92", mkE "all suffering is self-created" 160),
  ("93", mkE "superiority complex" 165),
  ("94", mkE "attraction to things" 170),
  ("95", mkE "greenhouse gas theory of global warming" 175),
  ("96", mkE "justified force" 180),
  ("97", mkE "urgent" 190),
  ("98", mkE "you have to make love work" 195),
  ("99", mkE "love just is and works" 440),
  ("100", mkE "pretending every desire is fullfilled (spiritual practice)" 560),
  ("101", mkE "wishful thinking" 145),
  ("102", mkE "being a blessing to the world" 500),
  ("103", mkE "Leonardo DiCaprio" 200),
  ("104", mkE "Crucifix" 495),
  ("105", mkE "contemplation: How am I aware or even know that I exist?" 590),
  ("106", mkE "Consciousness is God" 1000),
  ("107", mkE "One Big Beautiful Bill Act " 203),
  ("108", mkE "benevolent dictatorship" 200),
  ("109", mkE "Forgive everything that is witnessed and experienced, no matter what" 560),
  ("110", mkE "dogs" 250),
  ("111", mkE "cow" 195),
  ("112", mkE "innocence" 600),
  ("113", mkE "faith" 520),
  ("114", mkE "light-bulb moment" 400),
  ("115", mkE "aesthetic appreciation" 370),
  ("116", mkE "Netflix" 195),
  ("117", mkE "Sacrament of Reconciliation or Confession" 495),
  ("118", mkE "Fox News" 200),
  ("119", mkE "Alex Jones" 160),
  ("120", mkE "statement: loving others is no substitute for loving yourself" 570),
  ("121", mkE "all I need is just to be" 460),
  ("122", mkE "letting go by shaking" 530),
  ("123", mkE "Letting go for emotional liberation and transcendence of human limitations" 540),
  ("124", mkE "Letting go as a means to pursue enlightenment" 570),
  ("125", mkE "I am my own worst enemy" 440),
  ("126", mkE "laughing (energy)" 330),
  ("127", mkE "one can only go as high as they have been low" 590),
  ("128", mkE "Your room is an externalization of your mind" 400),
  ("129", mkE "social worker (occupation)" 245),
  ("130", mkE "energy to 'bless them that curse you'" 550),
  ("131", mkE "talking to God like to a therapist" 460),
  ("132", mkE "position: Doc shouldn't have taught consciousness calibration" 60),
  ("133", mkE "refusing negativity" 560),
  ("134", mkE "peace be with you" 570),
  ("135", mkE "redemption" 540),
  ("136", mkE "dictator" 50),
  ("137", mkE "Power vs. Force, by David R. Hawkins" 570),
  ("138", mkE "Alan Watts" 390),
  ("139", mkE "Tao Te Ching by Lao Tzu" 550),
  ("140", mkE "The Matrix (1999) movie" 150),
  ("141", mkE "may all be free of the weight of this world" 610),
  ("142", mkE "walking (exercise)" 220),
  ("143", mkE "Wikipedia" 203),
  ("144", mkE "the Presence of God as self-esteem" 560),
  ("145", mkE "past life regression" 290),
  ("146", mkE "juggling" 215),
  ("147", mkE "not seeing sin in anyone / anywhere" 575),
  ("148", mkE "What can frighten me, when I let all things be exactly as they are?" 560),
  ("149", mkE "to comfort another " 350),
  ("150", mkE "perfecting one's intention" 550),
  ("151", mkE "being a blessing to this world" 500),
  ("152", mkE "the most dangerous thing on the planet is the spiritualized ego" 550),
  ("153", mkE "I let Christ let go for me" 580),
  ("154", mkE "pathway of moderation" 560),
  ("155", mkE "alcohoilism can be cured" 550),
  ("156", mkE "the whole universe shames you" 0),
  ("157", mkE "the whole universe loves you" (59999/100 : Rat)),
  ("158", mkE "The degree of one’s faith in a practice or pathway empowers it" 510),
  ("159", mkE "I love you" 490),
  ("160", mkE "I bless you" 505),
  ("161", mkE "wear the world like a loose garment" 490),
  ("162", mkE "aluminum recycling" 210),
  ("163", mkE "plastic bottle recyling" 195),
  ("164", mkE "paper/cardboard recycling" 190),
  ("165", mkE "glass bottle recycling" 190),
  ("166", mkE "happiness" 385),
  ("167", mkE "seeing the world through rose-tinted glasses" 185),
  ("168", mkE "seeing only the best in others or oneself" 190),
  ("169", mkE "no mercy for the small-self" 30),
  ("170", mkE "a human with bad karma can reincarnate as an animal" 100),
  ("171", mkE "ignoring someone so they will like you" 150),
  ("172", mkE "karmic merit" 470),
  ("173", mkE "matra: I love myself" 530)]

/-- `ADAP_MAP_OF_CONSCIOUSNESS` (lines 1115–1246): the fixed 26-level
reference map, written — as in the source — in descending calibration
order. -/
def ADAP_MAP_OF_CONSCIOUSNESS : List (String × Entry) := [
  ("ADAPmoc_1000", mkE "The Absolute" 1000),
  ("ADAPmoc_900", mkE "Final Door" 900),
  ("ADAPmoc_850", mkE "Allness" 850),
  ("ADAPmoc_800", mkE "The Void" 800),
  ("ADAPmoc_750", mkE "Full Enlightenment" 750),
  ("ADAPmoc_700", mkE "Eternal Life" 700),
  ("ADAPmoc_600", mkE "Enlightenment" 600),
  ("ADAPmoc_550", mkE "Unconditional Love" 550),
  ("ADAPmoc_500", mkE "Love" 500),
  ("ADAPmoc_450", mkE "Nobleness" 450),
  ("ADAPmoc_400", mkE "Intellect" 400),
  ("ADAPmoc_350", mkE "Acceptance" 350),
  ("ADAPmoc_300", mkE "Willingness" 300),
  ("ADAPmoc_250", mkE "Higher Mind / Trust" 250),
  ("ADAPmoc_200", mkE "Integrity / Courage" 200),
  ("ADAPmoc_190", mkE "Lower Mind" 190),
  ("ADAPmoc_170", mkE "Pride" 170),
  ("ADAPmoc_150", mkE "Anger / Ego" 150),
  ("ADAPmoc_125", mkE "Desire" 125),
  ("ADAPmoc_100", mkE "Fear" 100),
  ("ADAPmoc_75", mkE "Grief" 75),
  ("ADAPmoc_50", mkE "Apathy" 50),
  ("ADAPmoc_25", mkE "Guilt" 25),
  ("ADAPmoc_15", mkE "Shame" 15),
  ("ADAPmoc_5", mkE "Terror / Death" 5),
  ("ADAPmoc_1", mkE "Spiritual Darkness" 1)]

/-- `ADAP_MOC_ORDERED_KEYS`: the source sorts the map's keys by
calibration, descending.  The map literal is already in strictly
descending calibration order (`adapMap_strictly_descending` below), so
the stable sort is the identity and the ordered keys are the keys in
source order. -/
def ADAP_MOC_ORDERED_KEYS : List String := ADAP_MAP_OF_CONSCIOUSNESS.map Prod.fst

/-- Evidence that the map literal is in strictly descending calibration
order, justifying `ADAP_MOC_ORDERED_KEYS` above. -/
theorem adapMap_strictly_descending :
    List.Pairwise (fun p q : String × Entry => q.2.calibration < p.2.calibration)
      ADAP_MAP_OF_CONSCIOUSNESS := by decide

/-- Reference-map lookup.  The source indexes the dict directly (a missing
key would raise `KeyError`); every key reaching the lookup is a key of the
map, so the default entry is unreachable there. -/
def adapLookup (k : String) : Entry :=
  (lookupList ADAP_MAP_OF_CONSCIOUSNESS k).getD (mkE "Spiritual Darkness" 1)

/-- `ADAP_MAP_OF_CONSCIOUSNESS[key]["calibration"]` with dict-`get`
default `0`, as `_select_best_adap_match` reads it. -/
def adapCalD0 (k : String) : ℚ :=
  ((lookupList ADAP_MAP_OF_CONSCIOUSNESS k).map Entry.calibration).getD 0

def ADAP_MOC_NEGATIVE_HINT_PHRASES : List String :=
  ["double standard", "double standards", "unfair", "unfairness", "bias",
   "biased", "hypocrisy", "hypocrite", "hypocritical", "dishonest", "deceit",
   "deceitful", "corrupt", "corruption", "unjust", "discriminatory",
   "discriminate"]

def ADAP_MOC_TOKEN_HINTS : List (ℚ × List String) :=
  [(160, ["want", "wants", "wanting", "wanted", "desire", "desires",
          "desiring", "needy", "need", "needs", "yearn", "yearning", "crave",
          "craving"]),
   (125, ["fear", "fears", "afraid", "scared", "worried", "worry", "anxious",
          "anxiety", "panic", "panicking", "terrified"]),
   (75, ["apathy", "hopeless", "hopelessness", "numb", "numbness", "limbo",
         "stuck"])]

/-- `_detect_adap_hint_loc`: a negative-judgment hint phrase (checked
first, by substring on the normalized text) maps to LoC 150; otherwise the
first token-hint group sharing a token with the statement gives its
anchor.  (The source iterates a Python set of phrases in unspecified
order; every phrase yields the same 150, so order is immaterial.) -/
def _detect_adap_hint_loc (text : String) : Option ℚ :=
  let normalized := normalize_term text
  let tokens := tokenize_for_overlap text
  if ADAP_MOC_NEGATIVE_HINT_PHRASES.any (fun p => containsSub normalized p) then
    some 150
  else
    ((ADAP_MOC_TOKEN_HINTS.find?
        (fun h => tokens.any (fun t => t ∈ h.2))).map Prod.fst)

/-- `_closest_adap_key_to_loc`: the key whose calibration is closest to
the target, preferring the lower calibration on ties; the scan starts
from the last ordered key.  (The source casts the calibration with
`int(…)`; every reference-map calibration is an integer, so the cast is
the identity.) -/
def _closest_adap_key_to_loc (target_loc : ℚ) : String :=
  (ADAP_MOC_ORDERED_KEYS.foldl
    (fun acc key =>
      let diff := |adapCalD0 key - target_loc|
      if diff < acc.2 ∨ (diff = acc.2 ∧ adapCalD0 key < adapCalD0 acc.1) then
        (key, diff)
      else acc)
    ((ADAP_MOC_ORDERED_KEYS.getLast?).getD "ADAPmoc_1", (0 : ℚ) + 10^9)).1

/-! ### Similarity scorer -/

/-- `calculate_similarity_features`: the character ratio on the raw
arguments and the token overlap. -/
def calculate_similarity_features (term candidate : String) : ℚ × Nat :=
  (ratioQ term candidate,
   interCount (tokenize_for_overlap term) (tokenize_for_overlap candidate))

/-- `is_close_match`: emptiness rejection, strict negation-polarity
gating, then token overlap against `min_token_overlap`, then (when a
truthy precomputed entry-token set is supplied) meaningful overlap with
the banned generic tokens subtracted, then the character-ratio fallback
restricted to strings of length at least 5. -/
def is_close_match (term candidate : String) (entry_tokens : Option (List String))
    (min_token_overlap : Nat) : Bool :=
  if term = "" ∨ candidate = "" then false
  else if has_negation term ≠ has_negation candidate then false
  else
    let features := calculate_similarity_features term candidate
    if min_token_overlap ≤ features.2 then true
    else
      let term_tokens := tokenize_for_overlap term
      let meaningful_hit : Bool :=
        match entry_tokens with
        | some et =>
          decide (et ≠ [] ∧
            min_token_overlap ≤
              interCount (et.filter (fun t => t ∉ BANNED_GENERIC_TOKENS)) term_tokens)
        | none => false
      if meaningful_hit then true
      else if term.toList.length < 5 ∨ candidate.toList.length < 5 then false
      else decide (SIMILARITY_THRESHOLD ≤ features.1)

/-! ### Corpus index and search operations -/

/-- `_candidate_keys_for_tokens` composed with the per-key loop: the
inverted token index restricts a scan to the entries sharing at least one
token with the term; when nothing shares a token (or the term has no
tokens) the whole table is scanned.  The source iterates a Python set of
keys in unspecified order and the spec leaves within-stage order
unspecified; the embedding scans in table order. -/
def candidateEntries (term_tokens : List String) (data : List (String × Entry)) :
    List (String × Entry) :=
  if term_tokens = [] then data
  else
    let shared := data.filter
      (fun p => 1 ≤ interCount term_tokens (entry_tokens_for p.2.string))
    if shared = [] then data else shared

/-- `search_database_exact`. -/
def search_database_exact (term : String) (data : List (String × Entry)) :
    List (String × Entry) :=
  let normalized_term := normalize_term term
  if normalized_term = "" then []
  else
    data.foldl
      (fun acc p =>
        if normalize_term p.2.string = normalized_term then upsert acc p.1 p.2 else acc)
      []

/-- `search_database_near_exact` (default `similarity_threshold` 0.93 at
both call sites). -/
def search_database_near_exact (term : String) (data : List (String × Entry))
    (similarity_threshold : ℚ) : List (String × Entry) :=
  let normalized_term := normalize_term term
  if normalized_term = "" then []
  else
    let term_tokens := tokenize_for_overlap normalized_term
    if term_tokens = [] then []
    else
      (candidateEntries term_tokens data).foldl
        (fun acc p =>
          let db_string := normalize_term p.2.string
          if db_string = "" then acc
          else
            let effective_threshold :=
              if (splitWords normalized_term).length ≤ 4 then
                max (8/10) (similarity_threshold - 1/10)
              else similarity_threshold
            if ratioQ normalized_term db_string < effective_threshold then acc
            else
              let entry_tokens := entry_tokens_for p.2.string
              let min_overlap := min term_tokens.length entry_tokens.length
              let overlap := interCount term_tokens entry_tokens
              if min_overlap ≤ 2 ∧ 1 ≤ overlap then upsert acc p.1 p.2
              else if max 1 min_overlap ≤ overlap then upsert acc p.1 p.2
              else acc)
        []

/-- `DATABASE_NORMALIZED_TO_KEY`: normalized display text to key over the
global corpus, later entries overwriting earlier ones. -/
def DATABASE_NORMALIZED_TO_KEY : List (String × String) :=
  database.foldl (fun acc p => upsert acc (normalize_term p.2.string) p.1) []

/-! ### Context-alignment gate -/

/-- `_heuristic_context_related`: the deterministic alignment heuristic
(token overlap with mandatory polarity agreement and a token-count
sensitive minimum, with character-ratio escape hatches). -/
def _heuristic_context_related (statement entry_text : String) : Bool :=
  let statement_tokens := tokenize_for_overlap statement
  let entry_tokens := entry_tokens_for entry_text
  if statement_tokens = [] ∨ entry_tokens = [] then false
  else if has_negation statement ≠ has_negation entry_text then false
  else
    let stc := statement_tokens.length
    let etc_ := entry_tokens.length
    let min_overlap := if stc ≤ 1 ∨ etc_ ≤ 1 then 1 else if min stc etc_ ≤ 2 then 1 else 2
    let overlap := interCount statement_tokens entry_tokens
    if overlap < min_overlap then
      if overlap = 1 then
        decide ((6/10 : ℚ) ≤ ratioQ (normalize_term statement) (normalize_term entry_text))
      else false
    else if overlap < 2 then
      if stc ≤ 2 ∨ etc_ ≤ 2 then true
      else if 4 ≤ max stc etc_ then
        decide ((65/100 : ℚ) ≤ ratioQ (normalize_term statement) (normalize_term entry_text))
      else true
    else true

/-- `contexts_align`: `externalJudgment` is the boolean the source parses
out of the backend's JSON reply (`none` when the backend is disabled,
returns nothing, or returns something unparsable).  The source memoizes
the result per `(normalize_term statement, entry_text)`; for a fixed
judgment function the memoization is semantically the identity, so the
embedding computes the combination directly: an external `false` wins, an
external `true` is accepted only if the heuristic also accepts. -/
def contexts_align (externalJudgment : Option Bool) (statement entry_text : String) :
    Bool :=
  let heuristic_related := _heuristic_context_related statement entry_text
  match externalJudgment with
  | none => heuristic_related
  | some related => if related ∧ ¬ heuristic_related then false else related

/-- `search_database_with_terms`: term-set search over the candidate
entries, with the word-count-aware minimum overlap, the optional
overlap-ratio filter (disabled for terms of at most 3 tokens), the
optional minimum-term-token-count filter, the close-match test and the
context gate (`ext` supplies each candidate's external alignment
judgment, as in `contexts_align`).  Returns the match dict and the set of
matched normalized terms. -/
def search_database_with_terms (ext : String → String → Option Bool)
    (terms : List String) (data : List (String × Entry))
    (statement_context : Option String) (min_term_token_overlap_ratio : ℚ)
    (min_term_tokens : Nat) :
    List (String × Entry) × List String :=
  terms.foldl
    (fun acc term =>
      let normalized_term := normalize_term term
      if normalized_term = "" then acc
      else
        let term_tokens := tokenize_for_overlap normalized_term
        if term_tokens = [] then acc
        else if 0 < min_term_tokens ∧ term_tokens.length < min_term_tokens then acc
        else
          let total_term_token_count := term_tokens.length
          let effective_min_ratio :=
            if 0 < min_term_token_overlap_ratio ∧ total_term_token_count ≤ 3 then 0
            else min_term_token_overlap_ratio
          let term_word_count := (splitWords normalized_term).length
          (candidateEntries term_tokens data).foldl
            (fun acc2 p =>
              let db_string := normalize_term p.2.string
              let entry_tokens := entry_tokens_for p.2.string
              let entry_word_count := (splitWords db_string).length
              let min_overlap :=
                if 1 < term_word_count ∧ 1 < entry_word_count then
                  (if min term_tokens.length entry_tokens.length ≤ 2 then 1 else 2)
                else 1
              let overlap := interCount term_tokens entry_tokens
              if overlap < min_overlap then acc2
              else if 0 < effective_min_ratio ∧ 0 < total_term_token_count ∧
                  (overlap : ℚ) / total_term_token_count < effective_min_ratio then acc2
              else if is_close_match normalized_term db_string (some entry_tokens)
                  min_overlap then
                match statement_context with
                | some c =>
                  if c ≠ "" ∧ contexts_align (ext c p.2.string) c p.2.string = false then
                    acc2
                  else (upsert acc2.1 p.1 p.2, insertNew acc2.2 normalized_term)
                | none => (upsert acc2.1 p.1 p.2, insertNew acc2.2 normalized_term)
              else acc2)
            acc)
    ([], [])

/-- `search_database_by_names`: resolve display names through the global
normalized-string-to-key map, with the context gate. -/
def search_database_by_names (ext : String → String → Option Bool)
    (names : List String) (data : List (String × Entry))
    (statement_context : Option String) : List (String × Entry) :=
  names.foldl
    (fun acc name =>
      match lookupList DATABASE_NORMALIZED_TO_KEY (normalize_term name) with
      | none => acc
      | some key =>
        if key = "" then acc
        else
          match lookupList data key with
          | none => acc
          | some entry =>
            match statement_context with
            | some c =>
              if c ≠ "" ∧ contexts_align (ext c entry.string) c entry.string = false then
                acc
              else upsert acc key entry
            | none => upsert acc key entry)
    []

/-- `_filter_statement_similarity_matches`: require at least two
statement tokens, an overlap of at least 2 with each kept entry and a
coverage of at least half the statement tokens unless the character ratio
reaches 0.8. -/
def _filter_statement_similarity_matches (statement : String)
    (matchSet : List (String × Entry)) : List (String × Entry) :=
  let statement_tokens := tokenize_for_overlap statement
  if statement_tokens.length < 2 then []
  else
    let normalized_statement := normalize_term statement
    matchSet.foldl
      (fun acc p =>
        let entry_tokens := entry_tokens_for p.2.string
        let overlap := interCount statement_tokens entry_tokens
        if overlap < 2 then acc
        else
          let coverage := (overlap : ℚ) / (max 1 statement_tokens.length)
          let ratio := ratioQ normalized_statement (normalize_term p.2.string)
          if coverage < 1/2 ∧ ratio < 8/10 then acc
          else upsert acc p.1 p.2)
      []

/-! ### Reference-map (ADAP map) matching -/

/-- `search_adap_map`: name-only close matching of each term against every
reference-map entry; a hit records a copy of the entry with
`matched_fields = ["name"]`. -/
def search_adap_map (terms : List String) (data : List (String × Entry)) :
    List (String × Entry) :=
  terms.foldl
    (fun acc term =>
      let normalized_term := normalize_term term
      if normalized_term = "" then acc
      else
        data.foldl
          (fun acc2 p =>
            let entry_string := stripStr p.2.string
            if entry_string = "" then acc2
            else if is_close_match normalized_term (normalize_term entry_string)
                (some (tokenize_for_overlap entry_string)) 1 then
              upsert acc2 p.1
                ⟨p.2.string, p.2.calibration, p.2.type_, ["name"], p.2.reason,
                 p.2.is_adap_map⟩
            else acc2)
          acc)
    []

/-- The scan of `_select_best_adap_match`: best hit by matched-field
count, ties broken toward the higher calibration (read with dict-`get`
default 0), starting from `(None, [], -1.0)`. -/
def adapBestFold (matchSet : List (String × Entry)) :
    Option String × List String × ℚ :=
  matchSet.foldl
    (fun acc p =>
      let fields := p.2.matched_fields
      let score : ℚ := fields.length
      if acc.2.2 < score ∨
          (score = acc.2.2 ∧ adapCalD0 ((acc.1).getD p.1) < adapCalD0 p.1) then
        (some p.1, fields, score)
      else acc)
    (none, [], (-1 : ℚ))

/-- `_select_best_adap_match`: the best key with its reason text and
matched fields. -/
def _select_best_adap_match (matchSet : List (String × Entry)) :
    Option String × Option String × List String :=
  let best := adapBestFold matchSet
  match best.1 with
  | none => (none, none, best.2.1)
  | some k =>
    if best.2.1 ≠ [] then
      (some k, some ("overlap on " ++ String.intercalate ", " best.2.1), best.2.1)
    else (some k, some "token overlap", best.2.1)

/-- `_heuristic_adap_map_match`: fully local scoring of every ordered
reference-map entry by token overlap plus (when a hint anchor was
detected) calibration proximity to the anchor; the highest strict score
wins, ties keep the earlier (higher-calibration) entry. -/
def _heuristic_adap_map_match (statement : String) : String × String :=
  let tokens := tokenize_for_overlap statement
  let hint_loc := _detect_adap_hint_loc statement
  let best := ADAP_MOC_ORDERED_KEYS.foldl
    (fun acc key =>
      let entry := adapLookup key
      let overlap : ℚ := interCount tokens (tokenize_for_overlap entry.string)
      let score := overlap +
        (match hint_loc with
         | some h => max 0 (1 - |entry.calibration - h| / 300)
         | none => 0)
      if acc.2 < score then (some key, score) else acc)
    (none, (-1 : ℚ))
  let reason :=
    if 0 < best.2 then "heuristic intent similarity" else "default fallback (no overlap)"
  ((best.1).getD ((ADAP_MOC_ORDERED_KEYS.getLast?).getD "ADAPmoc_1"), reason)

/-- The selection phase of `match_adap_map`, before the hint-anchor
override: the backend's pick (`gptPick`, always a key of the map when
present, per `evaluate_adap_map_with_gpt`) wins over the best
token-overlap hit; with neither, the local heuristic decides.  `gptReason`
is the backend's reason text (`none` when absent; an all-whitespace reason
strips to the falsy `""`).  Returns (key, reason, matched fields). -/
def adapSelect (gptPick gptReason : Option String) (statement : String)
    (extra_terms : List String) : String × Option String × List String :=
  let overlap_matches := search_adap_map (statement :: extra_terms) ADAP_MAP_OF_CONSCIOUSNESS
  let best := _select_best_adap_match overlap_matches
  let overlap_key := best.1
  let overlap_reason := best.2.1
  let overlap_fields := best.2.2
  let selected_key? := match gptPick with
    | some k => some k
    | none => overlap_key
  match selected_key? with
  | none =>
    let h := _heuristic_adap_map_match statement
    (h.1, some h.2, [])
  | some k =>
    let fields := if some k = overlap_key then overlap_fields else []
    let reason := match gptPick with
      | some _ =>
        some (match gptReason with
          | some r => if r = "" then "model suggested intent" else r
          | none => "model suggested intent")
      | none =>
        match overlap_reason with
        | some r => some r
        | none => some "intent match"
    (k, reason, fields)

/-- The post-selection anchor override of `match_adap_map`: when a hint
anchor was detected, the selection carries no matched fields, and its
calibration is more than 50 from the anchor, the entry closest to the
anchor replaces it (with the "aligned to hinted intent" reason). -/
def adapFinalSelection (gptPick gptReason : Option String) (statement : String)
    (extra_terms : List String) : String × Option String × List String :=
  let sel := adapSelect gptPick gptReason statement extra_terms
  match _detect_adap_hint_loc statement with
  | some loc =>
    if sel.2.2 = [] ∧ 50 < |((adapLookup sel.1).calibration) - loc| then
      (_closest_adap_key_to_loc loc,
       some ("aligned to hinted intent near LoC " ++ toString loc.num), [])
    else sel
  | none => sel

/-- `match_adap_map`: the selection with its override, then the
single-entry match dict built from a copy of the chosen entry with the
selection's matched fields and reason and the reference-map marker. -/
def match_adap_map (gptPick gptReason : Option String) (statement : String)
    (extra_terms : List String) : List (String × Entry) :=
  let final := adapFinalSelection gptPick gptReason statement extra_terms
  let base := adapLookup final.1
  [(final.1, ⟨base.string, base.calibration, base.type_, final.2.2, final.2.1, true⟩)]

/-! ### Keyword expander -/

/-- `dedupe_preserve`: drop items whose normalized form is empty or was
seen, keep first occurrences, store them stripped. -/
def dedupe_preserve (items : List String) : List String :=
  (items.foldl
    (fun acc item =>
      let normalized := normalize_term item
      if normalized = "" ∨ normalized ∈ acc.2 then acc
      else (acc.1 ++ [stripStr item], acc.2 ++ [normalized]))
    ([], [])).1

/-- The characters `_clean_descriptor_text` strips from both ends:
backquote, straight and typographic quotes, and brackets. -/
def descriptorStripChars : List Char :=
  [backquoteChar, '"', apostropheChar, ldquoChar, rdquoChar, lsquoChar, rsquoChar,
   '(', ')', '[', ']', lbraceChar, rbraceChar]
where
  lbraceChar : Char := Char.ofNat 123
  rbraceChar : Char := Char.ofNat 125

/-- `_clean_descriptor_text`: trim, strip surrounding quote/bracket
characters, drop a trailing run of `!`/`?`, replace everything outside
`[A-Za-z -]` by a space, collapse whitespace, trim. -/
def _clean_descriptor_text (text : String) : String :=
  let cleaned := stripCharSet (stripStr text) descriptorStripChars
  let cleaned := String.mk
    ((cleaned.toList.reverse.dropWhile (fun c => c = '!' ∨ c = '?')).reverse)
  let mapped := cleaned.toList.map
    (fun c => if isAsciiAlpha c ∨ c = ' ' ∨ c = '-' then c else ' ')
  String.intercalate " "
    ((findallPat (fun c => c ≠ ' ') (fun c => c ≠ ' ') mapped).map String.mk)

/-- The per-word acceptance test of `filter_descriptors`, on the cleaned
word: at least 3 normalized characters, at most 4 words, the
`[a-z][a-z -]*` shape, at least 3 alphabetic characters, no sub-word
shorter than 3 characters or equal to a stopword, no banned descriptor
substring.  (Python's `str.isalpha` agrees with ASCII `[a-z]` here: the
normalized text only contains `[a-z0-9 ]`.) -/
def descriptorOk (cleaned : String) : Bool :=
  let normalized := normalize_term cleaned
  let parts := splitWords normalized
  decide (3 ≤ normalized.toList.length) &&
  decide (parts.length ≤ 4) &&
  (match normalized.toList with
   | [] => false
   | c :: rest =>
     isAsciiLowerAlpha c &&
       rest.all (fun x => isAsciiLowerAlpha x ∨ x = ' ' ∨ x = '-')) &&
  decide (3 ≤ (normalized.toList.filter isAsciiLowerAlpha).length) &&
  parts.all (fun part => decide (3 ≤ part.toList.length)) &&
  parts.all (fun part => ¬ is_stopword part) &&
  ¬ BANNED_DESCRIPTOR_SUBSTRINGS.any (fun bad => containsSub normalized bad)

/-- `filter_descriptors`: dedupe, clean each word, keep the cleaned text
of the words that pass `descriptorOk`. -/
def filter_descriptors (words : List String) : List String :=
  (dedupe_preserve words).foldl
    (fun acc word =>
      let cleaned := _clean_descriptor_text word
      if descriptorOk cleaned then acc ++ [cleaned] else acc)
    []

/-- `parse_keywords`: split the raw reply on newline/comma/semicolon
runs, strip leading enumeration markers (`\s*\d+[.)]\s*`) and surrounding
list-marker characters, keep the non-empty candidates; when none
survive, fall back to the bare `[A-Za-z][A-Za-z0-9' -]*` matches. -/
def parse_keywords (raw_text : String) : List String :=
  if raw_text = "" then []
  else
    let pieces := findallPat (fun c => ¬ (c = '\n' ∨ c = ',' ∨ c = ';'))
      (fun c => ¬ (c = '\n' ∨ c = ',' ∨ c = ';')) raw_text.toList
    let keywords := pieces.foldl
      (fun acc piece =>
        let afterWs := piece.dropWhile isWs
        let digits := afterWs.takeWhile isAsciiDigit
        let enumStripped :=
          if digits ≠ [] ∧
              ((afterWs.drop digits.length).head? = some '.' ∨
               (afterWs.drop digits.length).head? = some ')') then
            (afterWs.drop (digits.length + 1)).dropWhile isWs
          else piece
        let cleaned := stripCharSet (String.mk enumStripped)
          [' ', '-', '*', bulletChar, '\t']
        if cleaned ≠ "" then acc ++ [cleaned] else acc)
      []
    if keywords ≠ [] then keywords
    else
      (findallPat isAsciiAlpha
        (fun c => isAsciiAlpha c ∨ isAsciiDigit c ∨ c = apostropheChar ∨ c = ' ' ∨ c = '-')
        raw_text.toList).map String.mk

/-- `fallback_keywords_from_text`: the deduplicated
`[A-Za-z][A-Za-z0-9']*` words of the lowercased text, or the fixed filler
terms when none survive, truncated to the desired count. -/
def fallback_keywords_from_text (text : String) (desired_count : Nat) : List String :=
  let tokens := (findallPat isAsciiAlpha
    (fun c => isAsciiAlpha c ∨ isAsciiDigit c ∨ c = apostropheChar)
    (lowerStr text).toList).map String.mk
  let tokens := dedupe_preserve tokens
  let tokens :=
    if tokens = [] then ["context", "intent", "impact", "behavior", "cause", "effect"]
    else tokens
  tokens.take desired_count

/-- `fallback_keywords_from_terms`: the words of the unmatched terms (or
the terms themselves when no word is found), followed by the fixed default
descriptors, deduplicated and truncated. -/
def fallback_keywords_from_terms (terms : List String) (desired_count : Nat) :
    List String :=
  let components := terms.foldl
    (fun acc term =>
      acc ++ ((findallPat isAsciiAlpha
        (fun c => isAsciiAlpha c ∨ isAsciiDigit c ∨ c = apostropheChar)
        (lowerStr term).toList).map String.mk))
    []
  let components := if components = [] then terms else components
  let defaults := ["symbolism", "meaning", "tradition", "culture", "ritual",
                   "belief", "ethic", "behavior", "principle"]
  (dedupe_preserve (components ++ defaults)).take desired_count

/-- `exclude_terms`: drop keywords whose normalized form is empty,
disallowed or already seen. -/
def exclude_terms (keywords : List String) (disallowed : List String) : List String :=
  let disallowed_norm := (disallowed.map normalize_term).filter (fun n => n ≠ "")
  (keywords.foldl
    (fun acc word =>
      let norm := normalize_term word
      if norm = "" ∨ norm ∈ disallowed_norm ∨ norm ∈ acc.2 then acc
      else (acc.1 ++ [word], acc.2 ++ [norm]))
    ([], [])).1

/-- The top-up loop of `get_keywords_from_prompt`: append fallback words
whose normalized form is new, stopping at the desired count. -/
def appendFallback (kws fallback_words : List String) (desired : Nat) : List String :=
  (fallback_words.foldl
    (fun acc word =>
      if desired ≤ acc.1.length then acc
      else
        let norm := normalize_term word
        if norm = "" ∨ norm ∈ acc.2 then acc
        else (acc.1 ++ [word], acc.2 ++ [norm]))
    (kws, kws.map normalize_term)).1

/-- `get_keywords_from_prompt`: `generated` is the backend's raw reply
(`none` when both backends return nothing).  Parse and filter it (with a
re-filter of its bare words when filtering leaves nothing), top up from
the deterministic fallback factory when fewer than half the desired count
survive, fall back entirely to the filtered factory output when still
empty, and truncate. -/
def get_keywords_from_prompt (generated : Option String) (desired_count : Nat)
    (fallback : List String) : List String :=
  let keywords := match generated with
    | some g =>
      if g = "" then []
      else
        let k := filter_descriptors (parse_keywords g)
        if k = [] then filter_descriptors (fallback_keywords_from_text g (desired_count * 2))
        else k
    | none => []
  let keywords :=
    if keywords.length < max 1 (desired_count / 2) then
      appendFallback keywords (filter_descriptors fallback) desired_count
    else keywords
  let keywords := if keywords = [] then filter_descriptors fallback else keywords
  keywords.take desired_count

/-- `generate_secondary_keywords`: up to 10 keywords for the statement;
`generated` stands for the backend's reply to the keyword prompt. -/
def generate_secondary_keywords (generated : Option String) (statement : String) :
    List String :=
  get_keywords_from_prompt generated 10 (fallback_keywords_from_text statement 10)

/-- `generate_tertiary_keywords`: expansion of the unmatched secondary
keywords, excluding the inputs; empty input short-circuits to `[]`. -/
def generate_tertiary_keywords (generated : Option String)
    (unmatched_terms : List String) : List String :=
  if unmatched_terms = [] then []
  else
    exclude_terms
      (get_keywords_from_prompt generated 15 (fallback_keywords_from_terms unmatched_terms 15))
      unmatched_terms

/-! ### Aggregator (Python floats embedded as real numbers) -/

/-- `statistics.mean`. -/
noncomputable def arithMean (values : List ℝ) : ℝ := values.sum / values.length

/-- The accumulation loop of `geometric_mean_values`: walk the
value/weight pairs left to right; the first non-positive value aborts
into the plain arithmetic mean of all values, otherwise accumulate
`log v * w` and `w` and finish with `exp (log_sum / weight_sum)` (or
nothing when the weights sum to zero). -/
noncomputable def geomAux (allValues : List ℝ) : List (ℝ × ℝ) → ℝ → ℝ → Option ℝ
  | [], log_sum, weight_sum =>
    if weight_sum = 0 then none else some (Real.exp (log_sum / weight_sum))
  | (v, w) :: rest, log_sum, weight_sum =>
    if v ≤ 0 then some (arithMean allValues)
    else geomAux allValues rest (log_sum + Real.log v * w) (weight_sum + w)

/-- `geometric_mean_values`: a weight list of the wrong length is
discarded (all weights 1.0, as in the source); an empty value list gives
nothing. -/
noncomputable def geometric_mean_values (values : List ℝ) (weights : Option (List ℝ)) :
    Option ℝ :=
  if values = [] then none
  else
    let ws := match weights with
      | some w => if w.length = values.length then w else List.replicate values.length 1
      | none => List.replicate values.length 1
    geomAux values (values.zip ws) 0 0

/-- `entry_weight`: `1.0 + 0.3 × #matched_fields + 0.2` for `"ADAP"`-typed
entries. -/
noncomputable def entry_weight (entry : Entry) : ℝ :=
  1 + (3/10 : ℝ) * entry.matched_fields.length +
    (if entry.type_ = "ADAP" then (2/10 : ℝ) else 0)

/-- `geometric_mean_entries`. -/
noncomputable def geometric_mean_entries (matchSet : List (String × Entry)) : Option ℝ :=
  geometric_mean_values (matchSet.map (fun p => ((p.2.calibration : ℝ))))
    (some (matchSet.map (fun p => entry_weight p.2)))

/-- `average_calibration`: below 3 matches, nothing. -/
noncomputable def average_calibration (matchSet : List (String × Entry)) : Option ℝ :=
  if matchSet.length < 3 then none else geometric_mean_entries matchSet

/-- The value `main` reports: `average_calibration(matches) or
geometric_mean_entries(matches)` — Python `or` takes the second operand
when the first is `None` *or* the float `0.0`. -/
noncomputable def main_reported_average (matchSet : List (String × Entry)) : Option ℝ :=
  match average_calibration matchSet with
  | none => geometric_mean_entries matchSet
  | some v => if v = 0 then geometric_mean_entries matchSet else some v

/-- `calibration_range`. -/
noncomputable def calibration_range (matchSet : List (String × Entry)) :
    Option (ℝ × ℝ) :=
  match matchSet.map (fun p => ((p.2.calibration : ℝ))) with
  | [] => none
  | c :: cs => some ((c :: cs).foldl min c, (c :: cs).foldl max c)

/-! ### Pipeline orchestrator -/

/-- Everything the external text-generation backend contributes to one
pipeline run, as the source parses it at each call site: the suggestion
list of `generate_database_suggestions` (backend suggestions merged with
the local heuristic suggester), the reference-map pick and reason of
`evaluate_adap_map_with_gpt`, the per-candidate alignment judgments of
`contexts_align`, and the raw replies to the two keyword prompts.  The
disabled backend is `⟨[], none, none, fun _ _ => none, none, none⟩`;
quantifying over a world covers every possible backend behaviour. -/
structure ExternalWorld where
  suggestions : List (String × String)
  adapPick : Option String
  adapReason : Option String
  alignJudgment : String → String → Option Bool
  secondaryText : Option String
  tertiaryText : Option String

/-- The result tuple of `run_pipeline` (`matchSet` is the consolidated
match dict the source calls `consolidated_matches`). -/
structure PipelineResult where
  matchSet : List (String × Entry)
  stages : List (String × List (String × Entry))
  secondary_keywords : List String
  tertiary_keywords : List String
  suggestions : List (String × String)
deriving Repr

/-- The secondary/tertiary tail of `run_pipeline` (stages 5 and 6, which
C1 below proves unreachable), with `recPrefix` the records of the stages
already run.  The source binds each stage's value to a local once; the
embedding repeats the pure call where the source reads the variable. -/
def run_pipeline_keyword_stages (w : ExternalWorld) (statement : String)
    (data : List (String × Entry))
    (recPrefix : List (String × List (String × Entry))) : PipelineResult :=
  if (if (search_database_with_terms w.alignJudgment
        (generate_secondary_keywords w.secondaryText statement) data
        (some statement) 0 0).1 = [] then
      match_adap_map w.adapPick w.adapReason statement
        (statement :: generate_secondary_keywords w.secondaryText statement)
    else (search_database_with_terms w.alignJudgment
        (generate_secondary_keywords w.secondaryText statement) data
        (some statement) 0 0).1) ≠ [] then
    ⟨updateDict []
      (if (search_database_with_terms w.alignJudgment
            (generate_secondary_keywords w.secondaryText statement) data
            (some statement) 0 0).1 = [] then
        match_adap_map w.adapPick w.adapReason statement
          (statement :: generate_secondary_keywords w.secondaryText statement)
      else (search_database_with_terms w.alignJudgment
          (generate_secondary_keywords w.secondaryText statement) data
          (some statement) 0 0).1),
     recPrefix ++ [("Secondary keywords + ADAP map",
       if (search_database_with_terms w.alignJudgment
            (generate_secondary_keywords w.secondaryText statement) data
            (some statement) 0 0).1 = [] then
        match_adap_map w.adapPick w.adapReason statement
          (statement :: generate_secondary_keywords w.secondaryText statement)
      else (search_database_with_terms w.alignJudgment
          (generate_secondary_keywords w.secondaryText statement) data
          (some statement) 0 0).1)],
     generate_secondary_keywords w.secondaryText statement, [], w.suggestions⟩
  else
    ⟨updateDict []
      (if (search_database_with_terms w.alignJudgment
            (generate_tertiary_keywords w.tertiaryText
              ((generate_secondary_keywords w.secondaryText statement).filter
                (fun term => normalize_term term ∉
                  (search_database_with_terms w.alignJudgment
                    (generate_secondary_keywords w.secondaryText statement) data
                    (some statement) 0 0).2))) data (some statement) 0 0).1 = [] then
        match_adap_map w.adapPick w.adapReason statement
          (statement :: (generate_secondary_keywords w.secondaryText statement ++
            generate_tertiary_keywords w.tertiaryText
              ((generate_secondary_keywords w.secondaryText statement).filter
                (fun term => normalize_term term ∉
                  (search_database_with_terms w.alignJudgment
                    (generate_secondary_keywords w.secondaryText statement) data
                    (some statement) 0 0).2))))
      else (search_database_with_terms w.alignJudgment
          (generate_tertiary_keywords w.tertiaryText
            ((generate_secondary_keywords w.secondaryText statement).filter
              (fun term => normalize_term term ∉
                (search_database_with_terms w.alignJudgment
                  (generate_secondary_keywords w.secondaryText statement) data
                  (some statement) 0 0).2))) data (some statement) 0 0).1),
     recPrefix ++ [("Secondary keywords + ADAP map",
       if (search_database_with_terms w.alignJudgment
            (generate_secondary_keywords w.secondaryText statement) data
            (some statement) 0 0).1 = [] then
        match_adap_map w.adapPick w.adapReason statement
          (statement :: generate_secondary_keywords w.secondaryText statement)
      else (search_database_with_terms w.alignJudgment
          (generate_secondary_keywords w.secondaryText statement) data
          (some statement) 0 0).1),
      ("Tertiary keywords + ADAP map",
       if (search_database_with_terms w.alignJudgment
            (generate_tertiary_keywords w.tertiaryText
              ((generate_secondary_keywords w.secondaryText statement).filter
                (fun term => normalize_term term ∉
                  (search_database_with_terms w.alignJudgment
                    (generate_secondary_keywords w.secondaryText statement) data
                    (some statement) 0 0).2))) data (some statement) 0 0).1 = [] then
        match_adap_map w.adapPick w.adapReason statement
          (statement :: (generate_secondary_keywords w.secondaryText statement ++
            generate_tertiary_keywords w.tertiaryText
              ((generate_secondary_keywords w.secondaryText statement).filter
                (fun term => normalize_term term ∉
                  (search_database_with_terms w.alignJudgment
                    (generate_secondary_keywords w.secondaryText statement) data
                    (some statement) 0 0).2))))
      else (search_database_with_terms w.alignJudgment
          (generate_tertiary_keywords w.tertiaryText
            ((generate_secondary_keywords w.secondaryText statement).filter
              (fun term => normalize_term term ∉
                (search_database_with_terms w.alignJudgment
                  (generate_secondary_keywords w.secondaryText statement) data
                  (some statement) 0 0).2))) data (some statement) 0 0).1)],
     generate_secondary_keywords w.secondaryText statement,
     generate_tertiary_keywords w.tertiaryText
       ((generate_secondary_keywords w.secondaryText statement).filter
         (fun term => normalize_term term ∉
           (search_database_with_terms w.alignJudgment
             (generate_secondary_keywords w.secondaryText statement) data
             (some statement) 0 0).2)),
     w.suggestions⟩

/-- `run_pipeline`: the ordered stage machine, returning at the first
stage with at least one match.  Stage records are appended even when
empty.  The source binds each stage's value to a local once; the
embedding repeats the pure call where the source reads the variable. -/
def run_pipeline (w : ExternalWorld) (statement : String)
    (data : List (String × Entry)) : PipelineResult :=
  if search_database_exact statement data ≠ [] then
    ⟨updateDict [] (search_database_exact statement data),
     [("Direct statement", search_database_exact statement data)], [], [], []⟩
  else if search_database_near_exact statement data (93/100) ≠ [] then
    ⟨updateDict [] (search_database_near_exact statement data (93/100)),
     [("Direct statement", search_database_exact statement data),
      ("Near exact statement", search_database_near_exact statement data (93/100))],
     [], [], []⟩
  else if _filter_statement_similarity_matches statement
      (search_database_with_terms w.alignJudgment [statement] data
        (some statement) (6/10) 2).1 ≠ [] then
    ⟨updateDict [] (_filter_statement_similarity_matches statement
      (search_database_with_terms w.alignJudgment [statement] data
        (some statement) (6/10) 2).1),
     [("Direct statement", search_database_exact statement data),
      ("Near exact statement", search_database_near_exact statement data (93/100)),
      ("Statement similarity", _filter_statement_similarity_matches statement
        (search_database_with_terms w.alignJudgment [statement] data
          (some statement) (6/10) 2).1)],
     [], [], []⟩
  else if (if w.suggestions.map Prod.fst ≠ [] then
      search_database_by_names w.alignJudgment (w.suggestions.map Prod.fst) data
        (some statement)
    else []) ≠ [] then
    ⟨updateDict [] (if w.suggestions.map Prod.fst ≠ [] then
      search_database_by_names w.alignJudgment (w.suggestions.map Prod.fst) data
        (some statement)
    else []),
     [("Direct statement", search_database_exact statement data),
      ("Near exact statement", search_database_near_exact statement data (93/100)),
      ("Statement similarity", _filter_statement_similarity_matches statement
        (search_database_with_terms w.alignJudgment [statement] data
          (some statement) (6/10) 2).1),
      ("Database suggestions", if w.suggestions.map Prod.fst ≠ [] then
        search_database_by_names w.alignJudgment (w.suggestions.map Prod.fst) data
          (some statement)
      else [])],
     [], [], w.suggestions⟩
  else if match_adap_map w.adapPick w.adapReason statement [statement] ≠ [] then
    ⟨updateDict [] (match_adap_map w.adapPick w.adapReason statement [statement]),
     [("Direct statement", search_database_exact statement data),
      ("Near exact statement", search_database_near_exact statement data (93/100)),
      ("Statement similarity", _filter_statement_similarity_matches statement
        (search_database_with_terms w.alignJudgment [statement] data
          (some statement) (6/10) 2).1),
      ("Database suggestions", if w.suggestions.map Prod.fst ≠ [] then
        search_database_by_names w.alignJudgment (w.suggestions.map Prod.fst) data
          (some statement)
      else []),
      ("ADAP map fallback", match_adap_map w.adapPick w.adapReason statement [statement])],
     [], [], w.suggestions⟩
  else
    run_pipeline_keyword_stages w statement data
      [("Direct statement", search_database_exact statement data),
       ("Near exact statement", search_database_near_exact statement data (93/100)),
       ("Statement similarity", _filter_statement_similarity_matches statement
         (search_database_with_terms w.alignJudgment [statement] data
           (some statement) (6/10) 2).1),
       ("Database suggestions", if w.suggestions.map Prod.fst ≠ [] then
         search_database_by_names w.alignJudgment (w.suggestions.map Prod.fst) data
           (some statement)
       else []),
       ("ADAP map fallback", match_adap_map w.adapPick w.adapReason statement [statement])]

/-! ### Helper lemmas on the container embeddings -/

theorem mem_insertNew_left {acc : List String} {y x : String} (h : x ∈ acc) :
    x ∈ insertNew acc y := by
  unfold insertNew
  split
  · exact h
  · exact List.mem_append_left _ h

theorem mem_upsert_elim {α : Type} {l : List (String × α)} {k : String} {v : α}
    {x : String × α} (h : x ∈ upsert l k v) : x ∈ l ∨ x = (k, v) := by
  unfold upsert at h
  split at h
  · rcases List.mem_map.mp h with ⟨q, hq, hx⟩
    by_cases hk : q.1 = k
    · right
      simp only [hk, if_pos] at hx
      exact hx.symm
    · left
      simp only [hk, if_neg, ite_false] at hx
      exact hx ▸ hq
  · rcases List.mem_append.mp h with h1 | h1
    · exact Or.inl h1
    · exact Or.inr (List.mem_singleton.mp h1)

/-- The inserted pairs of a fold of `upsert`s all satisfy `P` when the
initial ones do and every step inserts a satisfying pair. -/
theorem foldl_upsert_invariant {α β : Type} {P : String × α → Prop}
    (l : List β) (key : β → String) (val : β → α) (keep : β → Bool)
    (init : List (String × α)) (h0 : ∀ x ∈ init, P x)
    (hins : ∀ b ∈ l, keep b = true → P (key b, val b)) :
    ∀ x ∈ l.foldl (fun acc b => if keep b then upsert acc (key b) (val b) else acc) init,
      P x := by
  refine List.foldlRecOn (motive := fun acc => ∀ x ∈ acc, P x) l _ init h0 ?_
  intro acc hacc b hb
  intro x hx
  by_cases hkeep : keep b = true
  · simp only [hkeep, if_true] at hx
    rcases mem_upsert_elim hx with h | h
    · exact hacc x h
    · exact h ▸ hins b hb hkeep
  · simp only [Bool.not_eq_true] at hkeep
    simp only [hkeep, Bool.false_eq_true, if_false] at hx
    exact hacc x hx

/-! ### C3: the context-alignment combination rule -/

/-- C3.  For every statement, entry text and external judgment (absent,
unparsable — both `none` — or a parsed boolean), `contexts_align` returns
the conjunction of the parsed judgment with the deterministic heuristic
`_heuristic_context_related` when a judgment is present, and the
heuristic alone otherwise; in particular the final decision is never
`true` when the heuristic says `false`. -/
theorem contexts_align_and_combination (j : Option Bool) (s e : String) :
    (contexts_align j s e =
      match j with
      | some b => b && _heuristic_context_related s e
      | none => _heuristic_context_related s e) ∧
    (_heuristic_context_related s e = false → contexts_align j s e = false) := by
  constructor
  · cases j with
    | none => rfl
    | some b =>
      cases b <;> cases h : _heuristic_context_related s e <;>
        simp [contexts_align, h]
  · intro h
    cases j with
    | none => simpa [contexts_align] using h
    | some b => cases b <;> simp [contexts_align, h]

/-! ### C4: negation-polarity gating in `is_close_match` -/

/-- C4.  For non-empty `term` and `candidate` whose negation polarity
differs, `is_close_match` rejects, for every entry-token set and minimum
overlap, regardless of token overlap or character ratio. -/
theorem is_close_match_negation_gate (term candidate : String)
    (entry_tokens : Option (List String)) (min_token_overlap : Nat)
    (hterm : term ≠ "") (hcand : candidate ≠ "")
    (hneg : has_negation term ≠ has_negation candidate) :
    is_close_match term candidate entry_tokens min_token_overlap = false := by
  unfold is_close_match
  rw [if_neg (by simp [hterm, hcand]), if_pos hneg]

/-- Witness for C4 at the concrete pair `("ban x", "love")`: the term
carries the negation token `ban`, the candidate carries none, and the
match is rejected. -/
theorem is_close_match_negation_gate_witness :
    ("ban x" ≠ "" ∧ "love" ≠ "" ∧ has_negation "ban x" ≠ has_negation "love") ∧
      is_close_match "ban x" "love" none 1 = false :=
  ⟨⟨by decide, by decide, by decide⟩,
   is_close_match_negation_gate "ban x" "love" none 1 (by decide) (by decide) (by decide)⟩

/-! ### C8: tokenizer variant generation -/

theorem mem_foldl_insertNew {l : List String} {x : String} (acc : List String)
    (h : x ∈ acc ∨ x ∈ l) : x ∈ l.foldl insertNew acc := by
  induction l generalizing acc with
  | nil => simpa using h
  | cons y ys ih =>
    rcases h with h | h
    · exact ih (insertNew acc y) (Or.inl (mem_insertNew_left h))
    · rcases List.mem_cons.mp h with rfl | h
      · refine ih (insertNew acc x) (Or.inl ?_)
        unfold insertNew
        split
        · assumption
        · exact List.mem_append_right _ (List.mem_singleton.mpr rfl)
      · exact ih (insertNew acc y) (Or.inr h)

theorem tokenize_fold_preserve (runs : List String) (acc : List String) {v : String}
    (h : v ∈ acc) :
    v ∈ runs.foldl
      (fun acc token =>
        if token ∈ STOPWORDS ∨ token ∈ BANNED_GENERIC_TOKENS then acc
        else (_token_variants token).foldl insertNew acc) acc := by
  induction runs generalizing acc with
  | nil => simpa using h
  | cons r rest ih =>
    rw [List.foldl_cons]
    apply ih
    split
    · exact h
    · exact mem_foldl_insertNew acc (Or.inl h)

theorem tokenize_fold_emits (runs : List String) {t v : String}
    (hkeep : ¬ (t ∈ STOPWORDS ∨ t ∈ BANNED_GENERIC_TOKENS))
    (hv : v ∈ _token_variants t) :
    ∀ acc, t ∈ runs →
      v ∈ runs.foldl
        (fun acc token =>
          if token ∈ STOPWORDS ∨ token ∈ BANNED_GENERIC_TOKENS then acc
          else (_token_variants token).foldl insertNew acc) acc := by
  induction runs with
  | nil => intro acc ht; simp at ht
  | cons r rest ih =>
    intro acc ht
    rw [List.foldl_cons]
    rcases List.mem_cons.mp ht with rfl | ht
    · apply tokenize_fold_preserve
      rw [if_neg hkeep]
      exact mem_foldl_insertNew acc (Or.inr hv)
    · exact ih _ ht

/-- Every variant of a surviving token of the text appears in the token
set `tokenize_for_overlap` produces. -/
theorem tokenize_emits_variants {text t v : String}
    (ht : t ∈ (findallPat isAsciiAlpha isAsciiAlpha (lowerStr text).toList).map String.mk)
    (hkeep : ¬ (t ∈ STOPWORDS ∨ t ∈ BANNED_GENERIC_TOKENS))
    (hv : v ∈ _token_variants t) : v ∈ tokenize_for_overlap text := by
  unfold tokenize_for_overlap
  exact tokenize_fold_emits _ hkeep hv [] ht

theorem stringMk_ne_empty {l : List Char} (h : l ≠ []) : String.mk l ≠ "" := by
  intro he
  apply h
  have := congrArg String.toList he
  simpa using this

theorem toList_mk (l : List Char) : (String.mk l).toList = l := rfl

theorem string_ne_empty_of_length {t : String} (h : 0 < t.toList.length) : t ≠ "" := by
  intro he
  subst he
  simp at h

theorem toList_length_eq (s : String) : s.toList.length = s.length := rfl

theorem dropRightStr_ne_empty {t : String} {n : Nat} (h : n < t.toList.length) :
    dropRightStr t n ≠ "" := by
  apply stringMk_ne_empty
  intro he
  have := congrArg List.length he
  simp only [List.length_take, List.length_nil] at this
  omega

theorem append_y_ne_empty (s : String) : s ++ "y" ≠ "" := by
  intro h
  have hlen := congrArg String.length h
  rw [String.length_append] at hlen
  have hy : "y".length = 1 := rfl
  have h0 : "".length = 0 := rfl
  omega

/-- C8 (amended).  `_token_variants` adds no variant to a token of at most
3 characters; for a longer token not ending in a double s it emits the
token itself plus the drop-trailing-s, drop-trailing-es and ies-to-y
variants whenever the respective suffix is present.  Consequently
`tokenize_for_overlap "bans"` and `tokenize_for_overlap "ban"` share a
token with `tokenize_for_overlap "ban"`, but — the variant rules cover
only the s/es/ies suffixes, not "-ing" — `tokenize_for_overlap "banning"`
shares none. -/
theorem token_variants_spec (t : String) :
    (t ≠ "" → t.toList.length ≤ 3 → _token_variants t = [t]) ∧
    (3 < t.toList.length → endsWithStr t "ss" = false →
      (t ∈ _token_variants t ∧
       (endsWithStr t "s" = true → dropRightStr t 1 ∈ _token_variants t) ∧
       (endsWithStr t "es" = true → dropRightStr t 2 ∈ _token_variants t) ∧
       (endsWithStr t "ies" = true → dropRightStr t 3 ++ "y" ∈ _token_variants t))) ∧
    (∀ text v,
      t ∈ (findallPat isAsciiAlpha isAsciiAlpha (lowerStr text).toList).map String.mk →
      ¬ (t ∈ STOPWORDS ∨ t ∈ BANNED_GENERIC_TOKENS) →
      v ∈ _token_variants t → v ∈ tokenize_for_overlap text) ∧
    1 ≤ interCount (tokenize_for_overlap "bans") (tokenize_for_overlap "ban") ∧
    1 ≤ interCount (tokenize_for_overlap "ban") (tokenize_for_overlap "ban") ∧
    interCount (tokenize_for_overlap "banning") (tokenize_for_overlap "ban") = 0 := by
  refine ⟨?_, ?_, fun text v ht hkeep hv => tokenize_emits_variants ht hkeep hv,
    by decide, by decide, by decide⟩
  · intro hne hlen
    unfold _token_variants
    rw [if_neg (by omega)]
    simp [insertNew, hne]
  · intro hlen hss
    have hlong : 3 < t.toList.length ∧ ¬ endsWithStr t "ss" = true :=
      ⟨hlen, by simp [hss]⟩
    have hmem : ∀ x : String, x ≠ "" →
        (x ∈ [t] ++
          ((if endsWithStr t "ies" = true then [dropRightStr t 3 ++ "y"] else []) ++
           (if endsWithStr t "es" = true then [dropRightStr t 2] else []) ++
           (if endsWithStr t "s" = true then [dropRightStr t 1] else []))) →
        x ∈ _token_variants t := by
      intro x hx hxm
      unfold _token_variants
      rw [if_pos hlong]
      refine List.mem_filter.mpr ⟨mem_foldl_insertNew [] (Or.inr hxm), ?_⟩
      simpa using hx
    refine ⟨?_, ?_, ?_, ?_⟩
    · exact hmem t (string_ne_empty_of_length (by omega)) (by simp)
    · intro hs
      refine hmem _ (dropRightStr_ne_empty (by omega)) ?_
      simp [hs]
    · intro hs
      refine hmem _ (dropRightStr_ne_empty (by omega)) ?_
      simp [hs]
    · intro hs
      refine hmem _ (append_y_ne_empty _) ?_
      simp [hs]

/-- C8 counterexample: `tokenize_for_overlap "banning"` shares no token
with `tokenize_for_overlap "ban"`, although the claim asserts an overlap
of at least one. -/
theorem tokenize_banning_ban_no_overlap :
    interCount (tokenize_for_overlap "banning") (tokenize_for_overlap "ban") = 0 ∧
    tokenize_for_overlap "banning" = ["banning"] ∧
    tokenize_for_overlap "ban" = ["ban"] := by decide

/-! ### C9: keyword fallback behaviour with the backend absent -/

theorem filter_descriptors_mem_ok {l : List String} {w : String}
    (h : w ∈ filter_descriptors l) : descriptorOk w = true := by
  unfold filter_descriptors at h
  refine List.foldlRecOn (motive := fun acc => ∀ x ∈ acc, descriptorOk x = true)
    (dedupe_preserve l) _ [] (by simp) ?_ w h
  intro acc hacc word _
  intro x hx
  dsimp only at hx
  split at hx
  · rcases List.mem_append.mp hx with h1 | h1
    · exact hacc x h1
    · rw [List.mem_singleton.mp h1]
      assumption
  · exact hacc x hx

theorem filter_descriptors_norm_ne {l : List String} {w : String}
    (h : w ∈ filter_descriptors l) : normalize_term w ≠ "" := by
  have hok := filter_descriptors_mem_ok h
  unfold descriptorOk at hok
  simp only [Bool.and_eq_true, decide_eq_true_eq] at hok
  obtain ⟨⟨⟨⟨⟨⟨hA, _⟩, _⟩, _⟩, _⟩, _⟩, _⟩ := hok
  exact string_ne_empty_of_length (by omega)

theorem appendFallback_fst_ne_nil {ws : List String} {acc : List String × List String}
    (h : acc.1 ≠ []) (desired : Nat) :
    (ws.foldl
      (fun acc word =>
        if desired ≤ acc.1.length then acc
        else
          let norm := normalize_term word
          if norm = "" ∨ norm ∈ acc.2 then acc
          else (acc.1 ++ [word], acc.2 ++ [norm]))
      acc).1 ≠ [] := by
  induction ws generalizing acc with
  | nil => simpa using h
  | cons w rest ih =>
    simp only [List.foldl_cons]
    apply ih
    split
    · exact h
    · split
      · exact h
      · simp

theorem take_ne_nil_of_ne_nil {l : List String} (h : l ≠ []) (n : Nat) (hn : n ≠ 0) :
    l.take n ≠ [] := by
  cases l with
  | nil => simp at h
  | cons a as =>
    cases n with
    | zero => simp at hn
    | succ m => simp

/-- C9 (amended).  With the external backend returning nothing, the
deterministic fallback `fallback_keywords_from_text` itself always
produces a non-empty list, but `generate_secondary_keywords` returns the
descriptor-filtered fallback and is therefore empty exactly when
`filter_descriptors` removes every fallback word. -/
theorem generate_secondary_keywords_none_spec (s : String) :
    fallback_keywords_from_text s 10 ≠ [] ∧
    (generate_secondary_keywords none s = [] ↔
      filter_descriptors (fallback_keywords_from_text s 10) = []) := by
  constructor
  · unfold fallback_keywords_from_text
    dsimp only
    split
    · exact take_ne_nil_of_ne_nil (by simp) 10 (by omega)
    · exact take_ne_nil_of_ne_nil (by assumption) 10 (by omega)
  · unfold generate_secondary_keywords get_keywords_from_prompt
    constructor
    · intro hempty
      by_contra hne
      apply hne
      rcases hf : filter_descriptors (fallback_keywords_from_text s 10) with _ | ⟨w, ws⟩
      · rfl
      · exfalso
        rw [hf] at hempty
        simp only [List.length_nil, appendFallback] at hempty
        have hstep : (List.foldl
            (fun acc word =>
              if 10 ≤ acc.1.length then acc
              else
                let norm := normalize_term word
                if norm = "" ∨ norm ∈ acc.2 then acc
                else (acc.1 ++ [word], acc.2 ++ [norm]))
            (([] : List String), ([] : List String).map normalize_term) (w :: ws)).1 ≠ [] := by
          simp only [List.foldl_cons, List.map_nil]
          have hw : normalize_term w ≠ "" :=
            filter_descriptors_norm_ne (hf ▸ List.mem_cons_self w ws)
          rw [if_neg (by simp), if_neg (by simp [hw])]
          exact appendFallback_fst_ne_nil (by simp) 10
        rw [if_neg (by simpa using hstep)] at hempty
        exact absurd (by simpa using hempty) hstep
    · intro hf
      rw [hf]
      simp [appendFallback, hf]

/-- C9 counterexample: for the statement `"the"` (whose only fallback
word is the stopword `the`, which descriptor filtering removes) the
keyword expansion returns the empty list even though the backend returned
nothing, while the claim asserts a non-empty result. -/
theorem generate_secondary_keywords_the_empty :
    generate_secondary_keywords none "the" = [] ∧
    fallback_keywords_from_text "the" 10 = ["the"] := by decide

/-! ### C5 and C6: the aggregator -/

theorem geomAux_nonpos (all : List ℝ) (pairs : List (ℝ × ℝ)) (ls ws : ℝ)
    (h : ∃ p ∈ pairs, p.1 ≤ 0) :
    geomAux all pairs ls ws = some (arithMean all) := by
  induction pairs generalizing ls ws with
  | nil => simp at h
  | cons p rest ih =>
    rcases h with ⟨q, hq, hq0⟩
    rcases List.mem_cons.mp hq with rfl | hq
    · unfold geomAux
      rw [if_pos hq0]
    · unfold geomAux
      split
      · rfl
      · exact ih _ _ ⟨q, hq, hq0⟩

theorem geomAux_pos (all : List ℝ) (pairs : List (ℝ × ℝ)) (ls ws : ℝ)
    (hpos : ∀ p ∈ pairs, 0 < p.1)
    (hsum : ws + (pairs.map Prod.snd).sum ≠ 0) :
    geomAux all pairs ls ws =
      some (Real.exp ((ls + (pairs.map (fun p => Real.log p.1 * p.2)).sum) /
        (ws + (pairs.map Prod.snd).sum))) := by
  induction pairs generalizing ls ws with
  | nil =>
    unfold geomAux
    rw [if_neg (by simpa using hsum)]
    simp
  | cons p rest ih =>
    unfold geomAux
    rw [if_neg (not_le.mpr (hpos p (List.mem_cons_self p rest)))]
    rw [ih (ls + Real.log p.1 * p.2) (ws + p.2)
      (fun q hq => hpos q (List.mem_cons_of_mem p hq))
      (by
        rw [add_assoc]
        simpa using hsum)]
    simp only [List.map_cons, List.sum_cons]
    rw [add_assoc, add_assoc]

theorem entry_weight_ge_one (e : Entry) : 1 ≤ entry_weight e := by
  unfold entry_weight
  have h1 : (0 : ℝ) ≤ (3/10 : ℝ) * e.matched_fields.length := by positivity
  have h2 : (0 : ℝ) ≤ (if e.type_ = "ADAP" then (2/10 : ℝ) else 0) := by
    split <;> norm_num
  linarith

theorem weights_sum_ne_zero {m : List (String × Entry)} (hne : m ≠ []) :
    (m.map (fun p => entry_weight p.2)).sum ≠ 0 := by
  have hpos : 0 < (m.map (fun p => entry_weight p.2)).sum := by
    apply List.sum_pos
    · intro x hx
      rcases List.mem_map.mp hx with ⟨p, _, rfl⟩
      exact lt_of_lt_of_le one_pos (entry_weight_ge_one p.2)
    · simpa using hne
  exact ne_of_gt hpos

/-- Shared case analysis of the aggregator, used by the C5 and C6
theorems below: on a non-empty match set, all-positive calibrations give
the weighted-geometric-mean exponential and a non-positive calibration
gives the arithmetic mean. -/
theorem geometric_mean_entries_cases (m : List (String × Entry)) (hne : m ≠ []) :
    ((∀ p ∈ m, (0 : ℝ) < ((p.2.calibration : ℝ))) →
      geometric_mean_entries m =
        some (Real.exp (
          (m.map (fun p => Real.log ((p.2.calibration : ℝ)) *
            (1 + (3/10 : ℝ) * p.2.matched_fields.length +
              (if p.2.type_ = "ADAP" then (2/10 : ℝ) else 0)))).sum /
          (m.map (fun p => 1 + (3/10 : ℝ) * p.2.matched_fields.length +
              (if p.2.type_ = "ADAP" then (2/10 : ℝ) else 0))).sum))) ∧
    ((∃ p ∈ m, ((p.2.calibration : ℝ)) ≤ 0) →
      geometric_mean_entries m =
        some ((m.map (fun p => ((p.2.calibration : ℝ)))).sum /
          (m.map (fun p => ((p.2.calibration : ℝ)))).length)) := by
  have hzip : (m.map (fun p => ((p.2.calibration : ℝ)))).zip
      (m.map (fun p => entry_weight p.2)) =
      m.map (fun p => (((p.2.calibration : ℝ)), entry_weight p.2)) :=
    List.zip_map' _ _ m
  have hvals_ne : m.map (fun p => ((p.2.calibration : ℝ))) ≠ [] := by
    simpa using hne
  constructor
  · intro hpos
    unfold geometric_mean_entries geometric_mean_values
    rw [if_neg hvals_ne]
    dsimp only
    rw [if_pos (by simp), hzip]
    rw [geomAux_pos _ _ 0 0
      (by
        intro q hq
        rcases List.mem_map.mp hq with ⟨p, hp, rfl⟩
        exact hpos p hp)
      (by
        rw [List.map_map]
        simpa using weights_sum_ne_zero hne)]
    rw [List.map_map, List.map_map]
    simp only [Function.comp, zero_add]
    rfl
  · intro hneg
    unfold geometric_mean_entries geometric_mean_values
    rw [if_neg hvals_ne]
    dsimp only
    rw [if_pos (by simp), hzip]
    rw [geomAux_nonpos _ _ 0 0
      (by
        rcases hneg with ⟨p, hp, hp0⟩
        exact ⟨(((p.2.calibration : ℝ)), entry_weight p.2),
          List.mem_map.mpr ⟨p, hp, rfl⟩, hp0⟩)]
    unfold arithMean
    rfl

/-- For every non-empty match set the weighted geometric mean aggregator
produces a value (positive calibrations give the exponential form,
otherwise the arithmetic-mean degradation fires). -/
theorem geometric_mean_entries_ne_none {m : List (String × Entry)} (hne : m ≠ []) :
    geometric_mean_entries m ≠ none := by
  by_cases hneg : ∃ p ∈ m, ((p.2.calibration : ℝ)) ≤ 0
  · rw [(geometric_mean_entries_cases m hne).2 hneg]
    simp
  · push_neg at hneg
    rw [(geometric_mean_entries_cases m hne).1 (fun p hp => hneg p hp)]
    simp

/-- C6.  For every non-empty match set, with the per-match weight
`1.0 + 0.3 × #matchedFields + 0.2` for the `"ADAP"` kind: when every
calibration is positive the aggregate is
`exp (Σ ln(value)·weight / Σ weight)`, and when some calibration is
non-positive the aggregate degrades to the plain unweighted arithmetic
mean of all values (the logarithm loop is abandoned at the first
non-positive value, so `ln` is never taken of a non-positive number). -/
theorem geometric_mean_entries_weighted_spec (m : List (String × Entry)) (hne : m ≠ []) :
    ((∀ p ∈ m, (0 : ℝ) < ((p.2.calibration : ℝ))) →
      geometric_mean_entries m =
        some (Real.exp (
          (m.map (fun p => Real.log ((p.2.calibration : ℝ)) *
            (1 + (3/10 : ℝ) * p.2.matched_fields.length +
              (if p.2.type_ = "ADAP" then (2/10 : ℝ) else 0)))).sum /
          (m.map (fun p => 1 + (3/10 : ℝ) * p.2.matched_fields.length +
              (if p.2.type_ = "ADAP" then (2/10 : ℝ) else 0))).sum))) ∧
    ((∃ p ∈ m, ((p.2.calibration : ℝ)) ≤ 0) →
      geometric_mean_entries m =
        some ((m.map (fun p => ((p.2.calibration : ℝ)))).sum /
          (m.map (fun p => ((p.2.calibration : ℝ)))).length)) :=
  geometric_mean_entries_cases m hne

/-- Witness for C6 at the one-entry match set `social pressure (185)`:
every calibration is positive, so the aggregate is the weighted
geometric mean. -/
theorem geometric_mean_entries_weighted_spec_witness :
    geometric_mean_entries [("1", mkE "social pressure" 185)] =
      some (Real.exp (
        ([("1", mkE "social pressure" 185)].map
          (fun p => Real.log ((p.2.calibration : ℝ)) *
            (1 + (3/10 : ℝ) * p.2.matched_fields.length +
              (if p.2.type_ = "ADAP" then (2/10 : ℝ) else 0)))).sum /
        ([("1", mkE "social pressure" 185)].map
          (fun p => 1 + (3/10 : ℝ) * p.2.matched_fields.length +
            (if p.2.type_ = "ADAP" then (2/10 : ℝ) else 0))).sum)) :=
  (geometric_mean_entries_weighted_spec [("1", mkE "social pressure" 185)] (by simp)).1
    (by
      intro p hp
      rcases List.mem_singleton.mp hp with rfl
      norm_num [mkE])

/-- C5 (amended).  `average_calibration` returns nothing whenever the
match set has fewer than 3 entries; but the value `main` delivers is
`average_calibration(matches) or geometric_mean_entries(matches)`, which
is a number for every non-empty match set — a numeric (weighted
geometric-mean) answer **is** produced from 1–2 match points, qualified
in the report as "only a few matches available"; only an empty match set
yields the null "insufficient data" outcome. -/
theorem average_calibration_floor_and_delivery (m : List (String × Entry)) :
    (m.length < 3 → average_calibration m = none) ∧
    (m = [] → main_reported_average m = none) ∧
    (m ≠ [] → main_reported_average m ≠ none) := by
  refine ⟨?_, ?_, ?_⟩
  · intro h
    unfold average_calibration
    rw [if_pos h]
  · intro h
    subst h
    unfold main_reported_average average_calibration
    rw [if_pos (by simp)]
    unfold geometric_mean_entries geometric_mean_values
    rw [if_pos (by simp)]
  · intro hne
    unfold main_reported_average
    rcases havg : average_calibration m with _ | v
    · exact geometric_mean_entries_ne_none hne
    · dsimp only
      split
      · exact geometric_mean_entries_ne_none hne
      · simp

/-- C5 counterexample: for the singleton match set `social pressure
(185)` the count floor makes `average_calibration` null, yet the value
delivered to the caller is the (non-null) weighted geometric mean — the
claim's "the answer delivered to the caller is null" fails. -/
theorem main_reported_average_singleton_not_null :
    average_calibration [("1", mkE "social pressure" 185)] = none ∧
    main_reported_average [("1", mkE "social pressure" 185)] ≠ none := by
  constructor
  · unfold average_calibration
    rw [if_pos (by simp)]
  · unfold main_reported_average average_calibration
    rw [if_pos (by simp)]
    unfold geometric_mean_entries geometric_mean_values
    rw [if_neg (by simp)]
    dsimp only
    rw [if_pos (by simp)]
    rw [List.zip_map' _ _ [("1", mkE "social pressure" 185)]]
    simp only [List.map_cons, List.map_nil]
    unfold geomAux
    rw [if_neg (by norm_num [mkE])]
    unfold geomAux
    rw [if_neg (by norm_num [mkE, entry_weight])]
    simp

/-! ### C7: near-exact acceptance conditions -/

/-- C7.  Near-exact search accepts an entry only when the token overlap
between the term and the entry is at least 1 and the character-similarity
ratio between the normalized term and the normalized entry text reaches
the threshold: at least 0.93 in general, relaxed to at least 0.8 when the
term is short (at most 4 words — the code's relaxed cutoff is
`max 0.8 (0.93 − 0.1) = 0.83`, which is within the claimed 0.8). -/
theorem search_database_near_exact_sound (term : String) (data : List (String × Entry))
    (k : String) (e : Entry)
    (h : (k, e) ∈ search_database_near_exact term data (93/100)) :
    1 ≤ interCount (tokenize_for_overlap (normalize_term term)) (entry_tokens_for e.string) ∧
    ((splitWords (normalize_term term)).length ≤ 4 →
      (8/10 : ℚ) ≤ ratioQ (normalize_term term) (normalize_term e.string)) ∧
    (4 < (splitWords (normalize_term term)).length →
      (93/100 : ℚ) ≤ ratioQ (normalize_term term) (normalize_term e.string)) := by
  unfold search_database_near_exact at h
  dsimp only at h
  split at h
  · simp at h
  · split at h
    · simp at h
    · revert h
      refine List.foldlRecOn
        (motive := fun acc => ((k, e) ∈ acc →
          1 ≤ interCount (tokenize_for_overlap (normalize_term term))
              (entry_tokens_for e.string) ∧
          ((splitWords (normalize_term term)).length ≤ 4 →
            (8/10 : ℚ) ≤ ratioQ (normalize_term term) (normalize_term e.string)) ∧
          (4 < (splitWords (normalize_term term)).length →
            (93/100 : ℚ) ≤ ratioQ (normalize_term term) (normalize_term e.string))))
        (candidateEntries (tokenize_for_overlap (normalize_term term)) data) _ []
        (by simp) ?_
      intro acc hacc p _
      intro hmem
      split at hmem
      · exact hacc hmem
      · have hfinish : ∀ (_ : 1 ≤ interCount (tokenize_for_overlap (normalize_term term))
              (entry_tokens_for p.2.string))
            (_ : (splitWords (normalize_term term)).length ≤ 4 →
              (8/10 : ℚ) ≤ ratioQ (normalize_term term) (normalize_term p.2.string))
            (_ : 4 < (splitWords (normalize_term term)).length →
              (93/100 : ℚ) ≤ ratioQ (normalize_term term) (normalize_term p.2.string)),
            (k, e) ∈ upsert acc p.1 p.2 →
            1 ≤ interCount (tokenize_for_overlap (normalize_term term))
                (entry_tokens_for e.string) ∧
            ((splitWords (normalize_term term)).length ≤ 4 →
              (8/10 : ℚ) ≤ ratioQ (normalize_term term) (normalize_term e.string)) ∧
            (4 < (splitWords (normalize_term term)).length →
              (93/100 : ℚ) ≤ ratioQ (normalize_term term) (normalize_term e.string)) := by
          intro hov h8 h93 hup
          rcases mem_upsert_elim hup with hin | heq
          · exact hacc hin
          · have he : e = p.2 := congrArg Prod.snd heq
            subst he
            exact ⟨hov, h8, h93⟩
        split at hmem
        · next hshort =>
          split at hmem
          · exact hacc hmem
          · next hratio =>
            rw [not_lt] at hratio
            have h8 : (8/10 : ℚ) ≤ ratioQ (normalize_term term) (normalize_term p.2.string) :=
              le_trans (le_max_left _ _) hratio
            split at hmem
            · next hc1 =>
              exact hfinish (by omega) (fun _ => h8) (fun hl => absurd hshort (by omega)) hmem
            · split at hmem
              · next hc2 =>
                exact hfinish (by omega) (fun _ => h8) (fun hl => absurd hshort (by omega)) hmem
              · exact hacc hmem
        · next hlong =>
          split at hmem
          · exact hacc hmem
          · next hratio =>
            rw [not_lt] at hratio
            split at hmem
            · next hc1 =>
              exact hfinish (by omega) (fun hs => absurd hs hlong) (fun _ => hratio) hmem
            · split at hmem
              · next hc2 =>
                exact hfinish (by omega) (fun hs => absurd hs hlong) (fun _ => hratio) hmem
              · exact hacc hmem

set_option maxRecDepth 200000 in
/-- Witness for C7: the term `social pressure` against a one-entry table
holding the corpus entry `social pressure (185)` is accepted, and the
acceptance indeed comes with overlap ≥ 1 and ratio above the (short-term)
0.8 threshold. -/
theorem search_database_near_exact_sound_witness :
    (("1", mkE "social pressure" 185) ∈
      search_database_near_exact "social pressure"
        [("1", mkE "social pressure" 185)] (93/100)) ∧
    (1 ≤ interCount (tokenize_for_overlap (normalize_term "social pressure"))
        (entry_tokens_for (mkE "social pressure" 185).string) ∧
     ((splitWords (normalize_term "social pressure")).length ≤ 4 →
       (8/10 : ℚ) ≤ ratioQ (normalize_term "social pressure")
         (normalize_term (mkE "social pressure" 185).string)) ∧
     (4 < (splitWords (normalize_term "social pressure")).length →
       (93/100 : ℚ) ≤ ratioQ (normalize_term "social pressure")
         (normalize_term (mkE "social pressure" 185).string))) :=
  ⟨by decide,
   search_database_near_exact_sound "social pressure"
     [("1", mkE "social pressure" 185)] "1" (mkE "social pressure" 185) (by decide)⟩

/-! ### C2: the reference-map fallback is a forced singleton choice -/

theorem search_adap_map_keys {terms : List String} {data : List (String × Entry)}
    {x : String × Entry} (h : x ∈ search_adap_map terms data) :
    x.1 ∈ data.map Prod.fst := by
  unfold search_adap_map at h
  refine List.foldlRecOn
    (motive := fun acc => ∀ y ∈ acc, y.1 ∈ data.map Prod.fst)
    terms _ [] (by simp) ?_ x h
  intro acc hacc term _
  dsimp only
  split
  · exact hacc
  · refine List.foldlRecOn
      (motive := fun acc2 => ∀ y ∈ acc2, y.1 ∈ data.map Prod.fst)
      data _ acc hacc ?_
    intro acc2 hacc2 p hp
    intro y hy
    split at hy
    · exact hacc2 y hy
    · split at hy
      · rcases mem_upsert_elim hy with h1 | h1
        · exact hacc2 y h1
        · rw [h1]
          exact List.mem_map.mpr ⟨p, hp, rfl⟩
      · exact hacc2 y hy

theorem adapBestFold_mem_aux (l : List (String × Entry)) (big : List String) :
    ∀ (init : Option String × List String × ℚ),
      (∀ k', init.1 = some k' → k' ∈ big) → (∀ p ∈ l, p.1 ∈ big) →
      ∀ k', (l.foldl
        (fun acc p =>
          let fields := p.2.matched_fields
          let score : ℚ := fields.length
          if acc.2.2 < score ∨
              (score = acc.2.2 ∧ adapCalD0 ((acc.1).getD p.1) < adapCalD0 p.1) then
            (some p.1, fields, score)
          else acc)
        init).1 = some k' → k' ∈ big := by
  induction l with
  | nil =>
    intro init hinit _ k' hk'
    exact hinit k' hk'
  | cons p rest ih =>
    intro init hinit hl k' hk'
    rw [List.foldl_cons] at hk'
    refine ih _ ?_ (fun q hq => hl q (List.mem_cons_of_mem p hq)) k' hk'
    intro k'' hk''
    dsimp only at hk''
    split at hk''
    · have : p.1 = k'' := Option.some_inj.mp hk''
      exact this ▸ hl p (List.mem_cons_self p rest)
    · exact hinit k'' hk''

theorem adapBestFold_mem {m : List (String × Entry)} {k : String}
    (h : (adapBestFold m).1 = some k) : k ∈ m.map Prod.fst := by
  unfold adapBestFold at h
  exact adapBestFold_mem_aux m (m.map Prod.fst) (none, [], (-1 : ℚ)) (by simp)
    (fun p hp => List.mem_map.mpr ⟨p, hp, rfl⟩) k h

theorem select_best_adap_mem {m : List (String × Entry)} {k : String}
    (h : (_select_best_adap_match m).1 = some k) : k ∈ m.map Prod.fst := by
  unfold _select_best_adap_match at h
  dsimp only at h
  split at h
  · simp at h
  · next key heq =>
    have hkey : key = k := by
      split at h
      · simpa using h
      · simpa using h
    exact hkey ▸ adapBestFold_mem heq

theorem heuristic_fold_mem_aux (statement : String) (l big : List String)
    (hl : ∀ k ∈ l, k ∈ big) :
    ∀ init : Option String × ℚ, (∀ k', init.1 = some k' → k' ∈ big) →
      ∀ k', (l.foldl
        (fun acc key =>
          let entry := adapLookup key
          let overlap : ℚ := interCount (tokenize_for_overlap statement)
            (tokenize_for_overlap entry.string)
          let score := overlap +
            (match _detect_adap_hint_loc statement with
             | some h => max 0 (1 - |entry.calibration - h| / 300)
             | none => 0)
          if acc.2 < score then (some key, score) else acc)
        init).1 = some k' → k' ∈ big := by
  induction l with
  | nil => intro init hinit k' hk'; exact hinit k' hk'
  | cons key rest ih =>
    intro init hinit k' hk'
    rw [List.foldl_cons] at hk'
    refine ih (fun q hq => hl q (List.mem_cons_of_mem key hq)) _ ?_ k' hk'
    intro k'' hk''
    dsimp only at hk''
    split at hk''
    · exact (Option.some_inj.mp hk'') ▸ hl key (List.mem_cons_self key rest)
    · exact hinit k'' hk''

theorem heuristic_adap_map_match_mem (statement : String) :
    (_heuristic_adap_map_match statement).1 ∈ ADAP_MOC_ORDERED_KEYS := by
  unfold _heuristic_adap_map_match
  dsimp only
  rcases hres : (ADAP_MOC_ORDERED_KEYS.foldl
      (fun acc key =>
        let entry := adapLookup key
        let overlap : ℚ := interCount (tokenize_for_overlap statement)
          (tokenize_for_overlap entry.string)
        let score := overlap +
          (match _detect_adap_hint_loc statement with
           | some h => max 0 (1 - |entry.calibration - h| / 300)
           | none => 0)
        if acc.2 < score then (some key, score) else acc)
      (none, (-1 : ℚ))).1 with _ | k
  · simp only [Option.getD_none]
    decide
  · simp only [Option.getD_some]
    exact heuristic_fold_mem_aux statement ADAP_MOC_ORDERED_KEYS ADAP_MOC_ORDERED_KEYS
      (fun k hk => hk) _ (by simp) k hres

theorem closest_fold_mem_aux (target_loc : ℚ) (l big : List String)
    (hl : ∀ k ∈ l, k ∈ big) :
    ∀ init : String × ℚ, init.1 ∈ big →
      (l.foldl
        (fun acc key =>
          let diff := |adapCalD0 key - target_loc|
          if diff < acc.2 ∨ (diff = acc.2 ∧ adapCalD0 key < adapCalD0 acc.1) then
            (key, diff)
          else acc)
        init).1 ∈ big := by
  induction l with
  | nil => intro init hinit; exact hinit
  | cons key rest ih =>
    intro init hinit
    rw [List.foldl_cons]
    refine ih (fun q hq => hl q (List.mem_cons_of_mem key hq)) _ ?_
    dsimp only
    split
    · exact hl key (List.mem_cons_self key rest)
    · exact hinit

theorem closest_adap_key_mem (target_loc : ℚ) :
    _closest_adap_key_to_loc target_loc ∈ ADAP_MOC_ORDERED_KEYS := by
  unfold _closest_adap_key_to_loc
  exact closest_fold_mem_aux target_loc ADAP_MOC_ORDERED_KEYS ADAP_MOC_ORDERED_KEYS
    (fun k hk => hk) _ (by decide)

set_option maxRecDepth 40000 in
theorem adapSelect_none_mem (gptReason : Option String) (statement : String)
    (extra_terms : List String) :
    (adapSelect none gptReason statement extra_terms).1 ∈ ADAP_MOC_ORDERED_KEYS := by
  unfold adapSelect
  dsimp only
  rcases hov : (_select_best_adap_match
      (search_adap_map (statement :: extra_terms) ADAP_MAP_OF_CONSCIOUSNESS)).1 with _ | k
  · show (_heuristic_adap_map_match statement).1 ∈ ADAP_MOC_ORDERED_KEYS
    exact heuristic_adap_map_match_mem statement
  · show k ∈ ADAP_MOC_ORDERED_KEYS
    rcases List.mem_map.mp (select_best_adap_mem hov) with ⟨p, hp, hpk⟩
    exact hpk ▸ search_adap_map_keys hp

theorem adapFinalSelection_none_mem (gptReason : Option String) (statement : String)
    (extra_terms : List String) :
    (adapFinalSelection none gptReason statement extra_terms).1 ∈ ADAP_MOC_ORDERED_KEYS := by
  unfold adapFinalSelection
  dsimp only
  split
  · split
    · exact closest_adap_key_mem _
    · exact adapSelect_none_mem gptReason statement extra_terms
  · exact adapSelect_none_mem gptReason statement extra_terms

/-- C2.  With the external backend disabled (its pick and reason are
`none`, as `evaluate_adap_map_with_gpt` then returns), `match_adap_map`
returns a match dict holding exactly one entry, whose key is a level of
the fixed 26-level reference map and whose text and calibration are that
level's; determinism is inherent in the embedding, whose functions are
pure — identical input gives the identical entry by reflexivity. -/
theorem match_adap_map_disabled_singleton (statement : String)
    (extra_terms : List String) :
    ∃ k e, match_adap_map none none statement extra_terms = [(k, e)] ∧
      k ∈ ADAP_MOC_ORDERED_KEYS ∧
      e.string = (adapLookup k).string ∧
      e.calibration = (adapLookup k).calibration ∧
      e.is_adap_map = true := by
  refine ⟨(adapFinalSelection none none statement extra_terms).1,
    ⟨(adapLookup (adapFinalSelection none none statement extra_terms).1).string,
     (adapLookup (adapFinalSelection none none statement extra_terms).1).calibration,
     (adapLookup (adapFinalSelection none none statement extra_terms).1).type_,
     (adapFinalSelection none none statement extra_terms).2.2,
     (adapFinalSelection none none statement extra_terms).2.1, true⟩,
    rfl, adapFinalSelection_none_mem none statement extra_terms, rfl, rfl, rfl⟩

/-! ### C10: the anchor override fires for judgment-phrase hints -/

set_option maxRecDepth 40000 in
/-- C10.  Whenever the statement carries a negative-judgment hint
(`_detect_adap_hint_loc` anchors it at LoC 150 — which happens exactly
when a phrase such as "unfair" or "hypocrisy" is found, since the
desire/fear/apathy token hints anchor at 160, 125 and 75), the selected
entry carries no matched fields, and its calibration is more than 50 from
150, `match_adap_map` overrides the selection with the entry closest to
150 — the value-150 "Anger / Ego" level — with the reason "aligned to
hinted intent near LoC 150".  The override is driven by the anchor value
alone, not by which hint family produced it. -/
theorem match_adap_map_judgment_hint_override
    (gptPick gptReason : Option String) (statement : String)
    (extra_terms : List String)
    (hdet : _detect_adap_hint_loc statement = some 150)
    (hfields : (adapSelect gptPick gptReason statement extra_terms).2.2 = [])
    (hfar : 50 < |((adapLookup
      (adapSelect gptPick gptReason statement extra_terms).1).calibration) - 150|) :
    match_adap_map gptPick gptReason statement extra_terms =
      [("ADAPmoc_150",
        ⟨"Anger / Ego", 150, "ADAP", [],
         some "aligned to hinted intent near LoC 150", true⟩)] := by
  have hfinal : adapFinalSelection gptPick gptReason statement extra_terms =
      ("ADAPmoc_150", some "aligned to hinted intent near LoC 150", []) := by
    unfold adapFinalSelection
    rw [hdet]
    dsimp only
    rw [if_pos ⟨hfields, hfar⟩]
    have hclosest : _closest_adap_key_to_loc 150 = "ADAPmoc_150" := by decide
    rw [hclosest]
    decide
  unfold match_adap_map
  rw [hfinal]
  decide

set_option maxRecDepth 40000 in
/-- Witness for C10: the statement `"hypocrisy"` (a judgment-phrase hint,
no lexical overlap with any reference-map entry) with the backend picking
`Enlightenment` (LoC 600, more than 50 from the anchor) is overridden to
`Anger / Ego` (LoC 150). -/
theorem match_adap_map_judgment_hint_override_witness :
    match_adap_map (some "ADAPmoc_600") none "hypocrisy" [] =
      [("ADAPmoc_150",
        ⟨"Anger / Ego", 150, "ADAP", [],
         some "aligned to hinted intent near LoC 150", true⟩)] :=
  match_adap_map_judgment_hint_override (some "ADAPmoc_600") none "hypocrisy" []
    (by decide) (by decide) (by decide)

/-! ### C1: the pipeline never reaches the keyword stages -/

/-- The reference-map fallback is a forced choice: its match dict is a
literal singleton, hence never empty, whatever the backend contributed. -/
theorem match_adap_map_ne_nil (gptPick gptReason : Option String)
    (statement : String) (extra_terms : List String) :
    match_adap_map gptPick gptReason statement extra_terms ≠ [] := by
  unfold match_adap_map
  simp

/-- C1.  For every statement, corpus and external-backend behaviour,
`run_pipeline` terminates at or before the "ADAP map fallback" stage:
because `match_adap_map` always yields a non-empty (singleton) result,
the secondary- and tertiary-keyword stages are never executed — at most
the first five stages are recorded — and the `secondary_keywords` and
`tertiary_keywords` lists of the returned result are always empty. -/
theorem run_pipeline_stops_at_reference_map (w : ExternalWorld) (statement : String)
    (data : List (String × Entry)) :
    (run_pipeline w statement data).secondary_keywords = [] ∧
    (run_pipeline w statement data).tertiary_keywords = [] ∧
    (run_pipeline w statement data).stages.length ≤ 5 ∧
    ∀ n ∈ ((run_pipeline w statement data).stages.map Prod.fst),
      n ∈ ["Direct statement", "Near exact statement", "Statement similarity",
           "Database suggestions", "ADAP map fallback"] := by
  have hadap := match_adap_map_ne_nil w.adapPick w.adapReason statement [statement]
  unfold run_pipeline
  split
  · refine ⟨rfl, rfl, by simp, by simp⟩
  · split
    · refine ⟨rfl, rfl, by simp, by simp⟩
    · split
      · refine ⟨rfl, rfl, by simp, by simp⟩
      · split
        · split
          · refine ⟨rfl, rfl, by simp, by simp⟩
          · refine ⟨rfl, rfl, by simp, by simp⟩
        · split
          · next h => exact absurd rfl h
          · refine ⟨rfl, rfl, by simp, by simp⟩
